import Mathlib

/-!
# pg_auto_failover CLI option parsing and drop-node behavior: a shallow embedding

This file embeds, in Lean 4, the command-line option parsing and local node
dropping logic of pg_auto_failover's `pg_autoctl` binary, from the C sources

  * `src/bin/pg_autoctl/cli_common.c`
  * `src/bin/pg_autoctl/cli_create_drop_node.c`
  * `src/bin/pg_autoctl/cli_show.c`

`getopt_long` delivers a stream of recognized-option events to each parser's
`while`/`switch` loop; we embed a parser as a fold of a step function over a
list of such events (`Opt`), followed by the post-loop validation code.
Calls to `exit(code)` are embedded as an explicit `exit` result. Functions of
the repository that live outside the given sources (file probing, connection
string validation, SSL settings validation, pathname computation) are supplied
through an `Ext` record of external results, so that theorems can quantify
over their outcomes; the `PGDATA` environment variable is an explicit
`Option String` argument.
-/

namespace PgAutoctl

/-! ## Exit codes

The spec's table: exit codes 0 ok, 1 bad args, 12 bad config, 13 bad state,
14 keeper, 15 monitor, 16 PG control, 17 internal, 127 quit-from-help.
The constant names follow `cli_root.h`. -/

def EXIT_CODE_BAD_ARGS : Nat := 1
def EXIT_CODE_BAD_CONFIG : Nat := 12
def EXIT_CODE_BAD_STATE : Nat := 13
def EXIT_CODE_KEEPER : Nat := 14
def EXIT_CODE_MONITOR : Nat := 15
def EXIT_CODE_PGCTL : Nat := 16
def EXIT_CODE_INTERNAL_ERROR : Nat := 17
def EXIT_CODE_QUIT : Nat := 127

/-- Modelled from the spec: the sentinel monitor URI written to the
configuration file to encode `--disable-monitor` (constant
`PG_AUTOCTL_MONITOR_DISABLED` of `defaults.h`, which is not under `src/`):
"the sentinel `postgresql://autoctl_disabled` to encode `--disable-monitor`". -/
def PG_AUTOCTL_MONITOR_DISABLED : String := "postgresql://autoctl_disabled"

/-- Modelled from the spec: the sentinel authentication method stored by
`--skip-pg-hba` (constant `SKIP_HBA_AUTH_METHOD` of `defaults.h`, which is
not under `src/`). Its exact spelling is irrelevant to the claims; it only
matters that it is a fixed non-empty string. -/
def SKIP_HBA_AUTH_METHOD : String := "skip"

/-- Modelled from the spec: default candidate priority
(`FAILOVER_NODE_CANDIDATE_PRIORITY` of `defaults.h`, not under `src/`);
a 0-100 integer. -/
def FAILOVER_NODE_CANDIDATE_PRIORITY : Int := 50

/-- Modelled from the spec: default replication quorum flag
(`FAILOVER_NODE_REPLICATION_QUORUM` of `defaults.h`, not under `src/`). -/
def FAILOVER_NODE_REPLICATION_QUORUM : Bool := true

/-- Modelled from the spec: default `listen_addresses`
(`POSTGRES_DEFAULT_LISTEN_ADDRESSES` of `defaults.h`, not under `src/`). -/
def POSTGRES_DEFAULT_LISTEN_ADDRESSES : String := "*"

/-! ## Numeric string parsing, as used by the C code -/

/-- Value of a list of decimal digit characters. -/
def digitsVal (l : List Char) : Int :=
  l.foldl (fun a c => a * 10 + (c.toNat - 48 : Nat)) 0

/-- C `isspace` characters skipped by `strtol`. -/
def isSpaceChar (c : Char) : Bool :=
  c = ' ' ∨ c = '\t' ∨ c = '\n' ∨ c = '\r' ∨ c = '\x0b' ∨ c = '\x0c'

/-- `strtol(s, NULL, 10)` as called by the `--candidate-priority` option
handler in `cli_create_node_getopts`: skip leading whitespace, accept an
optional sign and then the longest prefix of decimal digits. When no digits
are present, no conversion is performed and the result is 0. Note that, per
POSIX and on glibc, `strtol` with a valid base sets `errno` only on range
overflow (`ERANGE`), never `EINVAL`; the `errno == EINVAL` test in the C code
is thus never true after this call, which is why this model returns only the
converted value. Range overflow clamps to `LONG_MAX`/`LONG_MIN`, which falls
outside 0..100 just as the unbounded value does, so the 0..100 range test in
the caller is unaffected by using unbounded integers here. -/
def strtol10 (s : String) : Int :=
  match s.data.dropWhile isSpaceChar with
  | '-' :: rest => -(digitsVal (rest.takeWhile Char.isDigit))
  | '+' :: rest => digitsVal (rest.takeWhile Char.isDigit)
  | cs => digitsVal (cs.takeWhile Char.isDigit)

/-- Modelled from the spec: `stringToInt` of `string_utils.c` (not under
`src/`), used for `--pgport`, `--group` and `--count`: converts a complete
decimal integer string, rejecting empty and non-numeric input. -/
def stringToInt (s : String) : Option Int :=
  match s.data with
  | '-' :: rest =>
      if rest = [] ∨ ¬ rest.all Char.isDigit then none
      else some (-(digitsVal rest))
  | '+' :: rest =>
      if rest = [] ∨ ¬ rest.all Char.isDigit then none
      else some (digitsVal rest)
  | cs =>
      if cs = [] ∨ ¬ cs.all Char.isDigit then none
      else some (digitsVal cs)

/-- Modelled from the spec: `parse_bool` of `parsing.c` (not under `src/`),
used for `--replication-quorum bool`: accepts the usual Postgres boolean
spellings. -/
def parse_bool (s : String) : Option Bool :=
  if s = "true" ∨ s = "yes" ∨ s = "on" ∨ s = "1" then some true
  else if s = "false" ∨ s = "no" ∨ s = "off" ∨ s = "0" then some false
  else none

/-- Client-side SSL modes accepted by libpq. -/
inductive SSLMode where
  | disable | allow | prefer | require | verifyCA | verifyFull
deriving DecidableEq, Repr

/-- Modelled from the spec: `pgsetup_parse_sslmode` of `pgsetup.c` (not under
`src/`), used by the `--ssl-mode` handler of `cli_getopt_ssl_flags`; an
unrecognized mode string is `SSL_MODE_UNKNOWN`, which that handler treats as
an error. -/
def pgsetup_parse_sslmode (s : String) : Option SSLMode :=
  if s = "disable" then some .disable
  else if s = "allow" then some .allow
  else if s = "prefer" then some .prefer
  else if s = "require" then some .require
  else if s = "verify-ca" then some .verifyCA
  else if s = "verify-full" then some .verifyFull
  else none

/-! ## The SSL command line state machine (`cli_common.h`, `cli_common.c`) -/

/-- `SSLCommandLineOptions` from `cli_common.h`. -/
inductive SSLCommandLineOptions where
  | unknown | noSSL | selfSigned | userProvided
deriving DecidableEq, Repr

/-- `cli_getopt_accept_ssl_options` from `cli_common.c`: can the new SSL
option be accepted given the SSL options already accepted? -/
def cli_getopt_accept_ssl_options
    (newSSLOption currentSSLOptions : SSLCommandLineOptions) : Bool :=
  if currentSSLOptions = .unknown then true
  else if currentSSLOptions ≠ newSSLOption then
    -- both the user-provided-mixing branch and the
    -- self-signed-versus-no-ssl branch return false
    false
  else true

/-- The `pgSetup.ssl` fields touched by the option parsers. -/
structure SSLOptions where
  active : Nat := 0
  createSelfSignedCert : Bool := false
  caFile : String := ""
  crlFile : String := ""
  serverCert : String := ""
  serverKey : String := ""
  sslModeStr : String := ""
  sslMode : Option SSLMode := none
deriving DecidableEq, Repr

/-! ## Parser state

One record holds every field written by any of the embedded parsers: the
`KeeperConfig`/`MonitorConfig` fields plus the file-scope globals
(`allowRemovingPgdata`, `createAndRun`, `outputJSON`, `dropAndDestroy`,
`showUriOptions`, `eventCount`, ...) that the C parsers mutate. Each parser's
step function only ever touches the fields its C switch statement touches. -/

inductive ShowFileSelection where
  | unknown | all | config | state | init | pid
deriving DecidableEq, Repr

structure PState where
  pg_ctl : String := ""
  pgdata : String := ""
  pghost : String := ""
  pgport : Int := 0
  listen_addresses : String := ""
  proxyport : Int := 0
  username : String := ""
  authMethod : String := ""
  dbname : String := ""
  nodename : String := ""
  formation : String := ""
  groupId : Int := 0
  monitor_pguri : String := ""
  monitorDisabled : Bool := false
  candidatePriority : Int := 0
  replicationQuorum : Bool := false
  ssl : SSLOptions := {}
  errors : Nat := 0
  sslCmdLine : SSLCommandLineOptions := .unknown
  allowRemovingPgdata : Bool := false
  createAndRun : Bool := false
  outputJSON : Bool := false
  dropAndDestroy : Bool := false
  showUriMonitorOnly : Bool := false
  showUriFormation : String := ""
  eventCount : Int := 0
  fileSelection : ShowFileSelection := .unknown
  showFileContents : Bool := false
  printVersion : Bool := false
deriving DecidableEq, Repr

/-- The option events a `getopt_long` loop can deliver. Each embedded parser
recognizes the subset its `long_options`/optstring declares and sends every
other event to its `default:` branch, exactly as `getopt_long` answers `?`
for options a given parser does not declare. -/
inductive Opt where
  | pgctl (v : String)
  | pgdata (v : String)
  | pghost (v : String)
  | pgport (v : String)
  | listen (v : String)
  | proxyport (v : String)
  | username (v : String)
  | auth (v : String)
  | skipPgHba
  | dbname (v : String)
  | nodename (v : String)
  | formation (v : String)
  | group (v : String)
  | monitorUri (v : String)
  | disableMonitor
  | allowRemovingPgdata
  | candidatePriority (v : String)
  | replicationQuorum (v : String)
  | version
  | verbose
  | quiet
  | help
  | run
  | sslSelfSigned
  | noSsl
  | sslCAFile (v : String)
  | sslCRLFile (v : String)
  | serverCert (v : String)
  | serverKey (v : String)
  | sslMode (v : String)
  | destroy
  | count (v : String)
  | json
  | monitorOnly
  | showAll
  | showConfig
  | showStateFile
  | showInitFile
  | showPidFile
  | showContents
  | unknown
deriving DecidableEq, Repr

/-- One step of a `getopt_long` loop either continues with an updated state
or terminates the whole process via `exit`. -/
inductive StepResult where
  | exit (code : Nat)
  | cont (s : PState)
deriving DecidableEq, Repr

/-- Result of a whole option parser: either `exit(code)` was reached or the
parser returned, publishing the parsed options. -/
inductive ParseResult where
  | exit (code : Nat)
  | ok (s : PState)
deriving DecidableEq, Repr

/-- Results of the external collaborators called by the embedded code but
implemented outside the given sources: connection-string validation
(`parsing.c`), SSL settings validation (`pgsetup.c`), configuration pathname
computation (`keeper_config.c`/`monitor_config.c`), file existence probing,
configuration file role probing, `pg_ctl` discovery, and the monitor RPCs. -/
structure Ext where
  validConnString : String → Bool := fun _ => true
  validateSSLSettings : SSLOptions → Bool := fun _ => true
  setPathnamesOk : String → Bool := fun _ => true
  configFileExists : String → Bool := fun _ => true
  searchPgctl : Option String := some "/usr/bin/pg_ctl"
  pgctlVersion : String → Option String := fun _ => some "11.5"
  defaultPgport : Int := 5432
  monitorConfigInitOk : Bool := true
  monitorRemoveOk : Bool := true
  readKeeperConfigOk : Bool := true

/-- A fully permissive external world, used to evaluate the parsers on
concrete inputs. -/
def extDefault : Ext := {}

/-- The `while ((c = getopt_long(...)) != -1)` loop: fold the step function
over the option events, stopping at the first `exit`. -/
def runLoop (step : Opt → PState → StepResult) : List Opt → PState → Sum Nat PState
  | [], s => .inr s
  | o :: rest, s =>
    match step o s with
    | .exit c => .inl c
    | .cont s' => runLoop step rest s'

/-- `get_env_pgdata_or_exit` inlined: when no `--pgdata` was given, fall back
to the `PGDATA` environment variable. `none` means neither is available, and
the caller exits. (The exit code of `get_env_pgdata_or_exit`, which lives
outside the given sources, is modelled from the spec as the bad-args code:
the spec lists `PGDATA` as a CLI fallback and `BadArgs` as CLI validation.) -/
def resolvePgdata (env : Option String) (s : PState) : Option PState :=
  if s.pgdata ≠ "" then some s
  else match env with
    | some d => some { s with pgdata := d }
    | none => none

/-! ## `cli_create_node_getopts` (cli_common.c), used by
`pg_autoctl create postgres` via `cli_create_postgres_getopts` -/

/-- `cli_getopt_ssl_flags` handling of one user-provided SSL file option,
shared by the `case 0:` branches: first the compatibility check (on failure,
`errors++` and `break` without recording the file), then record the file. -/
def sslFileStep (upd : SSLOptions → SSLOptions) (s : PState) : StepResult :=
  if cli_getopt_accept_ssl_options .userProvided s.sslCmdLine then
    .cont { s with sslCmdLine := .userProvided,
                   ssl := upd { s.ssl with active := 1 } }
  else
    .cont { s with errors := s.errors + 1 }

/-- `--ssl-mode`: `ssl_flag == SSL_MODE_FLAG` skips the compatibility check;
`cli_getopt_ssl_flags` records the mode string, then fails (`errors++` in the
caller) when the mode does not parse. -/
def sslModeStep (v : String) (s : PState) : StepResult :=
  let s := { s with ssl := { s.ssl with sslModeStr := v,
                                        sslMode := pgsetup_parse_sslmode v } }
  match pgsetup_parse_sslmode v with
  | some _ => .cont s
  | none => .cont { s with errors := s.errors + 1 }

/-- One iteration of the `cli_create_node_getopts` switch statement. -/
def createNodeStep (ext : Ext) (o : Opt) (s : PState) : StepResult :=
  match o with
  | .pgctl v => .cont { s with pg_ctl := v }
  | .pgdata v => .cont { s with pgdata := v }
  | .pghost v => .cont { s with pghost := v }
  | .pgport v =>
      match stringToInt v with
      | some n => .cont { s with pgport := n }
      | none => .cont { s with errors := s.errors + 1 }
  | .listen v => .cont { s with listen_addresses := v }
  | .proxyport v =>
      match stringToInt v with
      | some n => .cont { s with proxyport := n }
      | none => .cont { s with errors := s.errors + 1 }
  | .username v => .cont { s with username := v }
  | .auth v =>
      if s.authMethod ≠ "" then
        .cont { s with errors := s.errors + 1, authMethod := v }
      else
        .cont { s with authMethod := v }
  | .skipPgHba =>
      if s.authMethod ≠ "" then
        .cont { s with errors := s.errors + 1, authMethod := SKIP_HBA_AUTH_METHOD }
      else
        .cont { s with authMethod := SKIP_HBA_AUTH_METHOD }
  | .dbname v => .cont { s with dbname := v }
  | .nodename v => .cont { s with nodename := v }
  | .formation v => .cont { s with formation := v }
  | .group v =>
      match stringToInt v with
      | some n => .cont { s with groupId := n }
      | none => .exit EXIT_CODE_BAD_ARGS
  | .monitorUri v =>
      if ext.validConnString v then .cont { s with monitor_pguri := v }
      else .exit EXIT_CODE_BAD_ARGS
  | .disableMonitor => .cont { s with monitorDisabled := true }
  | .allowRemovingPgdata => .cont { s with allowRemovingPgdata := true }
  | .candidatePriority v =>
      let p := strtol10 v
      if p < 0 ∨ 100 < p then .exit EXIT_CODE_BAD_ARGS
      else .cont { s with candidatePriority := p }
  | .replicationQuorum v =>
      match parse_bool v with
      | some b => .cont { s with replicationQuorum := b }
      | none => .exit EXIT_CODE_BAD_ARGS
  | .version => .exit 0
  | .verbose => .cont s
  | .quiet => .cont s
  | .help => .exit EXIT_CODE_QUIT
  | .run => .cont { s with createAndRun := true }
  | .sslSelfSigned =>
      if cli_getopt_accept_ssl_options .selfSigned s.sslCmdLine then
        .cont { s with sslCmdLine := .selfSigned,
                       ssl := { s.ssl with active := 1, createSelfSignedCert := true } }
      else
        .cont { s with errors := s.errors + 1 }
  | .noSsl =>
      if cli_getopt_accept_ssl_options .noSSL s.sslCmdLine then
        .cont { s with sslCmdLine := .noSSL,
                       ssl := { s.ssl with active := 0, createSelfSignedCert := false } }
      else
        .cont { s with errors := s.errors + 1 }
  | .sslCAFile v => sslFileStep (fun ssl => { ssl with caFile := v }) s
  | .sslCRLFile v => sslFileStep (fun ssl => { ssl with crlFile := v }) s
  | .serverCert v => sslFileStep (fun ssl => { ssl with serverCert := v }) s
  | .serverKey v => sslFileStep (fun ssl => { ssl with serverKey := v }) s
  | .sslMode v => sslModeStep v s
  | _ => .cont { s with errors := s.errors + 1 }

/-- Initial `LocalOptionConfig` of `cli_create_node_getopts`: zeroed, then
the non-zero defaults forced at the top of the function. -/
def createNodeInit : PState :=
  { groupId := -1,
    candidatePriority := FAILOVER_NODE_CANDIDATE_PRIORITY,
    replicationQuorum := FAILOVER_NODE_REPLICATION_QUORUM }

/-- The `else if (LocalOptionConfig.monitorDisabled)` branch of the monitor
checks: when the monitor is disabled, write the "magic"
`PG_AUTOCTL_MONITOR_DISABLED` URI so the setup can be restored from the
configuration file. -/
def applyMonitorDisabled (s : PState) : PState :=
  if s.monitorDisabled = true then
    { s with monitor_pguri := PG_AUTOCTL_MONITOR_DISABLED }
  else s

/-- The post-loop validation of `cli_create_node_getopts`, in source order:
accumulated errors, PGDATA resolution, the mandatory authentication choice,
the mandatory SSL choice, SSL settings validation, the monitor/
disable-monitor exclusivity (writing the disabled sentinel), and
configuration pathname computation. -/
def cli_create_node_check (env : Option String) (ext : Ext) (s : PState) :
    ParseResult :=
  if 0 < s.errors then .exit EXIT_CODE_BAD_ARGS
  else
    match resolvePgdata env s with
    | none => .exit EXIT_CODE_BAD_ARGS
    | some s =>
      if s.authMethod = "" then .exit EXIT_CODE_BAD_ARGS
      else if s.sslCmdLine = .unknown then .exit EXIT_CODE_BAD_ARGS
      else if ¬ ext.validateSSLSettings s.ssl then .exit EXIT_CODE_BAD_ARGS
      else if s.monitor_pguri ≠ "" ∧ s.monitorDisabled = true then
        .exit EXIT_CODE_BAD_ARGS
      else if s.monitor_pguri = "" ∧ s.monitorDisabled = false then
        .exit EXIT_CODE_BAD_ARGS
      else if ¬ ext.setPathnamesOk (applyMonitorDisabled s).pgdata then
        .exit EXIT_CODE_BAD_ARGS
      else .ok (applyMonitorDisabled s)

/-- `cli_create_node_getopts`, the option parser of
`pg_autoctl create postgres`. -/
def cli_create_node_getopts (env : Option String) (ext : Ext)
    (opts : List Opt) : ParseResult :=
  match runLoop (createNodeStep ext) opts createNodeInit with
  | .inl c => .exit c
  | .inr s => cli_create_node_check env ext s

/-! ## `cli_create_monitor_getopts` (cli_create_drop_node.c) -/

/-- One iteration of the `cli_create_monitor_getopts` switch statement. The
monitor parser recognizes fewer options; its `default:` branch (and hence any
option this parser does not declare) prints help and exits with the bad-args
code at once, and a bad `--pgport` is also fatal at once. -/
def createMonitorStep (o : Opt) (s : PState) : StepResult :=
  match o with
  | .pgctl v => .cont { s with pg_ctl := v }
  | .pgdata v => .cont { s with pgdata := v }
  | .pgport v =>
      match stringToInt v with
      | some n => .cont { s with pgport := n }
      | none => .exit EXIT_CODE_BAD_ARGS
  | .listen v => .cont { s with listen_addresses := v }
  | .nodename v => .cont { s with nodename := v }
  | .auth v =>
      if s.authMethod ≠ "" then
        .cont { s with errors := s.errors + 1, authMethod := v }
      else
        .cont { s with authMethod := v }
  | .skipPgHba =>
      if s.authMethod ≠ "" then
        .cont { s with errors := s.errors + 1, authMethod := SKIP_HBA_AUTH_METHOD }
      else
        .cont { s with authMethod := SKIP_HBA_AUTH_METHOD }
  | .version => .exit 0
  | .verbose => .cont s
  | .quiet => .cont s
  | .help => .exit EXIT_CODE_QUIT
  | .run => .cont { s with createAndRun := true }
  | .sslSelfSigned =>
      if cli_getopt_accept_ssl_options .selfSigned s.sslCmdLine then
        .cont { s with sslCmdLine := .selfSigned,
                       ssl := { s.ssl with active := 1, createSelfSignedCert := true } }
      else
        .cont { s with errors := s.errors + 1 }
  | .noSsl =>
      if cli_getopt_accept_ssl_options .noSSL s.sslCmdLine then
        .cont { s with sslCmdLine := .noSSL,
                       ssl := { s.ssl with active := 0, createSelfSignedCert := false } }
      else
        .cont { s with errors := s.errors + 1 }
  | .sslCAFile v => sslFileStep (fun ssl => { ssl with caFile := v }) s
  | .sslCRLFile v => sslFileStep (fun ssl => { ssl with crlFile := v }) s
  | .serverCert v => sslFileStep (fun ssl => { ssl with serverCert := v }) s
  | .serverKey v => sslFileStep (fun ssl => { ssl with serverKey := v }) s
  | .sslMode v => sslModeStep v s
  | _ => .exit EXIT_CODE_BAD_ARGS

/-- Initial `MonitorConfig` of `cli_create_monitor_getopts`: zeroed, then the
hard-coded default `pgport = pgsetup_get_pgport()`. -/
def createMonitorInit (ext : Ext) : PState :=
  { pgport := ext.defaultPgport }

/-- `set_first_pgctl` (cli_common.c): search `pg_ctl` in PATH (failure is a
bad-args exit), then ask it for its version (failure is a PG-control exit). -/
def set_first_pgctl (ext : Ext) (s : PState) : ParseResult :=
  match ext.searchPgctl with
  | none => .exit EXIT_CODE_BAD_ARGS
  | some p =>
    match ext.pgctlVersion p with
    | none => .exit EXIT_CODE_PGCTL
    | some _ => .ok { s with pg_ctl := p }

/-- The post-loop validation of `cli_create_monitor_getopts`, in source
order: accumulated errors, PGDATA resolution, the mandatory authentication
choice, the mandatory SSL choice, SSL settings validation, `pg_ctl`
discovery when `--pgctl` was not given, and the `listen_addresses`
default. -/
def cli_create_monitor_check (env : Option String) (ext : Ext) (s : PState) :
    ParseResult :=
  if 0 < s.errors then .exit EXIT_CODE_BAD_ARGS
  else
    match resolvePgdata env s with
    | none => .exit EXIT_CODE_BAD_ARGS
    | some s =>
      if s.authMethod = "" then .exit EXIT_CODE_BAD_ARGS
      else if s.sslCmdLine = .unknown then .exit EXIT_CODE_BAD_ARGS
      else if ¬ ext.validateSSLSettings s.ssl then .exit EXIT_CODE_BAD_ARGS
      else
        match (if s.pg_ctl = "" then set_first_pgctl ext s else .ok s) with
        | .exit c => .exit c
        | .ok s =>
          if s.listen_addresses = "" then
            .ok { s with listen_addresses := POSTGRES_DEFAULT_LISTEN_ADDRESSES }
          else .ok s

/-- `cli_create_monitor_getopts`, the option parser of
`pg_autoctl create monitor`. -/
def cli_create_monitor_getopts (env : Option String) (ext : Ext)
    (opts : List Opt) : ParseResult :=
  match runLoop createMonitorStep opts (createMonitorInit ext) with
  | .inl c => .exit c
  | .inr s => cli_create_monitor_check env ext s

/-! ## `prepare_keeper_options` and the parsers built on it -/

/-- `prepare_keeper_options` (cli_common.c): resolve PGDATA (command line,
then environment), compute the configuration pathnames from it, and require
the configuration file to exist already — all three failures exit with the
bad-args code. -/
def prepare_keeper_options (env : Option String) (ext : Ext) (s : PState) :
    ParseResult :=
  match resolvePgdata env s with
  | none => .exit EXIT_CODE_BAD_ARGS
  | some s =>
    if ¬ ext.setPathnamesOk s.pgdata then .exit EXIT_CODE_BAD_ARGS
    else if ¬ ext.configFileExists s.pgdata then .exit EXIT_CODE_BAD_ARGS
    else .ok s

/-- One iteration of the `cli_drop_node_getopts` switch statement
(cli_create_drop_node.c); a bad `--pgport` and the `default:` branch are
fatal at once. -/
def dropNodeStep (o : Opt) (s : PState) : StepResult :=
  match o with
  | .pgdata v => .cont { s with pgdata := v }
  | .destroy => .cont { s with dropAndDestroy := true }
  | .nodename v => .cont { s with nodename := v }
  | .pgport v =>
      match stringToInt v with
      | some n => .cont { s with pgport := n }
      | none => .exit EXIT_CODE_BAD_ARGS
  | .version => .exit 0
  | .verbose => .cont s
  | .quiet => .cont s
  | .help => .exit EXIT_CODE_QUIT
  | _ => .exit EXIT_CODE_BAD_ARGS

/-- The post-loop validation of `cli_drop_node_getopts`: `--destroy` is
incompatible with `--nodename` and `--pgport`, then `prepare_keeper_options`
runs. -/
def cli_drop_node_getopts_check (env : Option String) (ext : Ext)
    (s : PState) : ParseResult :=
  if s.dropAndDestroy = true ∧ (s.nodename ≠ "" ∨ s.pgport ≠ 0) then
    .exit EXIT_CODE_BAD_ARGS
  else prepare_keeper_options env ext s

/-- `cli_drop_node_getopts`, the option parser of `pg_autoctl drop node` and
`pg_autoctl drop monitor`. -/
def cli_drop_node_getopts (env : Option String) (ext : Ext)
    (opts : List Opt) : ParseResult :=
  match runLoop dropNodeStep opts {} with
  | .inl c => .exit c
  | .inr s => cli_drop_node_getopts_check env ext s

/-- One iteration of the `cli_getopt_pgdata` switch statement (cli_common.c):
`--version` only records a flag, checked after the loop. -/
def getoptPgdataStep (o : Opt) (s : PState) : StepResult :=
  match o with
  | .pgdata v => .cont { s with pgdata := v }
  | .json => .cont { s with outputJSON := true }
  | .version => .cont { s with printVersion := true }
  | .verbose => .cont s
  | .quiet => .cont s
  | .help => .exit EXIT_CODE_QUIT
  | _ => .cont { s with errors := s.errors + 1 }

/-- `cli_getopt_pgdata` (cli_common.c): the terminal-command parser; after
the loop, accumulated errors exit bad-args, a recorded `--version` prints the
version and exits 0, and `prepare_keeper_options` finishes the job. -/
def cli_getopt_pgdata_check (env : Option String) (ext : Ext)
    (s : PState) : ParseResult :=
  if 0 < s.errors then .exit EXIT_CODE_BAD_ARGS
  else if s.printVersion = true then .exit 0
  else prepare_keeper_options env ext s

def cli_getopt_pgdata (env : Option String) (ext : Ext)
    (opts : List Opt) : ParseResult :=
  match runLoop getoptPgdataStep opts {} with
  | .inl c => .exit c
  | .inr s => cli_getopt_pgdata_check env ext s

/-! ## The `pg_autoctl show ...` parsers (cli_show.c) -/

/-- One iteration of the `cli_show_state_getopts` switch statement. Its
`long_options` declare `--monitor` as a no-argument option, but the switch
has no matching case, so it falls to `default:` (`errors++`), like every
undeclared option. -/
def showStateStep (o : Opt) (s : PState) : StepResult :=
  match o with
  | .pgdata v => .cont { s with pgdata := v }
  | .formation v => .cont { s with formation := v }
  | .group v =>
      match stringToInt v with
      | some n => .cont { s with groupId := n }
      | none => .exit EXIT_CODE_BAD_ARGS
  | .count v =>
      match stringToInt v with
      | some n => .cont { s with eventCount := n }
      | none => .exit EXIT_CODE_BAD_ARGS
  | .version => .exit 0
  | .verbose => .cont s
  | .quiet => .cont s
  | .help => .exit EXIT_CODE_QUIT
  | .json => .cont { s with outputJSON := true }
  | _ => .cont { s with errors := s.errors + 1 }

/-- Initial options of `cli_show_state_getopts` and
`cli_show_nodes_getopts`: `groupId = -1` and formation `"default"`. -/
def showStateInit : PState :=
  { groupId := -1, formation := "default" }

/-- The post-loop validation shared verbatim by `cli_show_state_getopts` and
`cli_show_nodes_getopts`: accumulated errors, then PGDATA resolution. -/
def cli_show_state_check (env : Option String) (s : PState) : ParseResult :=
  if 0 < s.errors then .exit EXIT_CODE_BAD_ARGS
  else
    match resolvePgdata env s with
    | none => .exit EXIT_CODE_BAD_ARGS
    | some s => .ok s

/-- `cli_show_state_getopts`, the option parser of `pg_autoctl show state`
and `pg_autoctl show events`. -/
def cli_show_state_getopts (env : Option String) (opts : List Opt) :
    ParseResult :=
  match runLoop showStateStep opts showStateInit with
  | .inl c => .exit c
  | .inr s => cli_show_state_check env s

/-- One iteration of the `cli_show_nodes_getopts` switch statement: like
`cli_show_state_getopts` but without a `--count` case (its optstring lists
`n:` yet the switch has no `case 'n'`, so `--count` falls to `default:`). -/
def showNodesStep (o : Opt) (s : PState) : StepResult :=
  match o with
  | .pgdata v => .cont { s with pgdata := v }
  | .formation v => .cont { s with formation := v }
  | .group v =>
      match stringToInt v with
      | some n => .cont { s with groupId := n }
      | none => .exit EXIT_CODE_BAD_ARGS
  | .version => .exit 0
  | .verbose => .cont s
  | .quiet => .cont s
  | .help => .exit EXIT_CODE_QUIT
  | .json => .cont { s with outputJSON := true }
  | _ => .cont { s with errors := s.errors + 1 }

/-- `cli_show_nodes_getopts`, the option parser of `pg_autoctl show nodes`
(and the synchronous-standby-names listings). -/
def cli_show_nodes_getopts (env : Option String) (opts : List Opt) :
    ParseResult :=
  match runLoop showNodesStep opts showStateInit with
  | .inl c => .exit c
  | .inr s => cli_show_state_check env s

/-- One iteration of the `cli_show_uri_getopts` switch statement: `--monitor`
here is the no-argument monitor-only selector written to the file-scope
`showUriOptions`, and the `default:` branch exits bad-args at once. -/
def showUriStep (o : Opt) (s : PState) : StepResult :=
  match o with
  | .pgdata v => .cont { s with pgdata := v }
  | .monitorOnly => .cont { s with showUriMonitorOnly := true }
  | .formation v => .cont { s with showUriFormation := v }
  | .version => .exit 0
  | .verbose => .cont s
  | .quiet => .cont s
  | .help => .exit EXIT_CODE_QUIT
  | .json => .cont { s with outputJSON := true }
  | _ => .exit EXIT_CODE_BAD_ARGS

/-- `cli_show_uri_getopts`, the option parser of `pg_autoctl show uri`:
`--monitor` and `--formation` are mutually exclusive, PGDATA is resolved,
and a pathname computation failure exits with the bad-config code. -/
def cli_show_uri_check (env : Option String) (ext : Ext) (s : PState) :
    ParseResult :=
  if s.showUriMonitorOnly = true ∧ s.showUriFormation ≠ "" then
    .exit EXIT_CODE_BAD_ARGS
  else
    match resolvePgdata env s with
    | none => .exit EXIT_CODE_BAD_ARGS
    | some s =>
      if ¬ ext.setPathnamesOk s.pgdata then .exit EXIT_CODE_BAD_CONFIG
      else .ok s

def cli_show_uri_getopts (env : Option String) (ext : Ext)
    (opts : List Opt) : ParseResult :=
  match runLoop showUriStep opts {} with
  | .inl c => .exit c
  | .inr s => cli_show_uri_check env ext s

/-- One iteration of the `cli_show_file_getopts` switch statement: the file
selectors warn or log on conflicting selections but never count errors, and
the `default:` branch exits bad-args at once. -/
def showFileStep (o : Opt) (s : PState) : StepResult :=
  match o with
  | .pgdata v => .cont { s with pgdata := v }
  | .showContents => .cont { s with showFileContents := true }
  | .showAll => .cont { s with fileSelection := .all }
  | .showConfig => .cont { s with fileSelection := .config }
  | .showStateFile => .cont { s with fileSelection := .state }
  | .showInitFile => .cont { s with fileSelection := .init }
  | .showPidFile => .cont { s with fileSelection := .pid }
  | .version => .exit 0
  | .verbose => .cont s
  | .quiet => .cont s
  | .help => .exit EXIT_CODE_QUIT
  | _ => .exit EXIT_CODE_BAD_ARGS

/-- `cli_show_file_getopts`, the option parser of `pg_autoctl show file`:
PGDATA is resolved, pathname computation failure exits bad-config, and the
selection defaults to `--all`. -/
def cli_show_file_check (env : Option String) (ext : Ext) (s : PState) :
    ParseResult :=
  match resolvePgdata env s with
  | none => .exit EXIT_CODE_BAD_ARGS
  | some s =>
    if ¬ ext.setPathnamesOk s.pgdata then .exit EXIT_CODE_BAD_CONFIG
    else if s.fileSelection = .unknown then .ok { s with fileSelection := .all }
    else .ok s

def cli_show_file_getopts (env : Option String) (ext : Ext)
    (opts : List Opt) : ParseResult :=
  match runLoop showFileStep opts {} with
  | .inl c => .exit c
  | .inr s => cli_show_file_check env ext s

/-! ## `pg_autoctl version` (cli_common.c) -/

/-- One iteration of the `cli_print_version_getopts` switch statement: only
`--json` and `--help` are acted upon; everything else, parse errors included,
falls to the `default:` branch which deliberately ignores it. -/
def printVersionStep (o : Opt) (s : PState) : StepResult :=
  match o with
  | .json => .cont { s with outputJSON := true }
  | .help => .exit EXIT_CODE_QUIT
  | _ => .cont s

/-- `keeper_cli_print_version` (cli_common.c): prints the version and always
exits with code 0. -/
def keeper_cli_print_version : Nat := 0

/-- The whole `pg_autoctl version` command: run
`cli_print_version_getopts`, then `keeper_cli_print_version`; the result is
the process exit code. -/
def versionCommand (opts : List Opt) : Nat :=
  match runLoop printVersionStep opts {} with
  | .inl c => c
  | .inr _ => keeper_cli_print_version

/-! ## `cli_drop_node` and `cli_drop_local_node` -/

/-- `ProbeConfigurationFileRole` outcomes (`pg_autoctl.role` in the probed
configuration file). -/
inductive ConfigRole where
  | monitor | keeper | unrecognized
deriving DecidableEq, Repr

/-- Outcome of the `pg_autoctl drop node` command body. -/
inductive DropNodeOutcome where
  | exit (code : Nat)
  | droppedFromMonitor (nodename : String) (pgport : Int)
  | droppedLocal (destroy : Bool)
deriving DecidableEq, Repr

/-- `cli_drop_node_from_monitor` (cli_create_drop_node.c): initialize the
monitor configuration from the probed setup and call
`pgautofailover.remove_node(nodename, port)` on the monitor. -/
def cli_drop_node_from_monitor (ext : Ext) (nodename : String) (port : Int) :
    DropNodeOutcome :=
  if ¬ ext.monitorConfigInitOk then .exit EXIT_CODE_BAD_CONFIG
  else if ¬ ext.monitorRemoveOk then .exit EXIT_CODE_MONITOR
  else .droppedFromMonitor nodename port

/-- `cli_drop_node` (cli_create_drop_node.c), run on the options published by
`cli_drop_node_getopts`: on a monitor node both `--nodename` and `--pgport`
are required and the entry is removed on the monitor; on a keeper node
neither may be given and the local node is dropped (after reading the keeper
configuration file). -/
def cli_drop_node (ext : Ext) (role : ConfigRole) (s : PState) :
    DropNodeOutcome :=
  if ¬ ext.configFileExists s.pgdata then .exit EXIT_CODE_BAD_CONFIG
  else
    match role with
    | .monitor =>
        if s.nodename = "" ∨ s.pgport = 0 then .exit EXIT_CODE_BAD_ARGS
        else cli_drop_node_from_monitor ext s.nodename s.pgport
    | .keeper =>
        if s.nodename ≠ "" ∨ s.pgport ≠ 0 then .exit EXIT_CODE_BAD_ARGS
        else if ¬ ext.readKeeperConfigOk then .exit EXIT_CODE_BAD_CONFIG
        else .droppedLocal s.dropAndDestroy
    | .unrecognized => .exit EXIT_CODE_BAD_CONFIG

/-- The local environment `cli_drop_local_node` acts on: which files exist
and whether each external operation succeeds. -/
structure DropEnv where
  pidFileExists : Bool := false
  pidReadOk : Bool := true
  killOk : Bool := true
  stateFileExists : Bool := true
  keeperRemoveOk : Bool := true
  pgCtlStopOk : Bool := true
  pgdataDirExists : Bool := true
  rmtreeOk : Bool := true
  unlinkConfigOk : Bool := true
deriving DecidableEq, Repr

/-- The externally visible filesystem effects of `cli_drop_local_node`, in
the order they succeed. `keeper_remove`'s removal of the state file and
monitor deregistration are outside the given sources and not tracked here. -/
inductive DropAction where
  | stopPostgres
  | removePgdata
  | removeConfig
deriving DecidableEq, Repr

/-- `stop_postgres_and_remove_pgdata_and_config` (cli_common.c): stop
PostgreSQL — a failure exits with the PG-control code and skips the removal
of PGDATA — then `rm -rf` PGDATA when the directory exists (failure exits
internal-error), then remove the configuration file (failure exits
bad-config). Returns the exit code taken, if any, and the effects
performed. -/
def stop_postgres_and_remove_pgdata_and_config (env : DropEnv) :
    Option Nat × List DropAction :=
  if ¬ env.pgCtlStopOk then (some EXIT_CODE_PGCTL, [])
  else
    let afterStop : List DropAction := [.stopPostgres]
    if env.pgdataDirExists ∧ ¬ env.rmtreeOk then
      (some EXIT_CODE_INTERNAL_ERROR, afterStop)
    else
      let afterRm := if env.pgdataDirExists then afterStop ++ [.removePgdata]
                     else afterStop
      if ¬ env.unlinkConfigOk then (some EXIT_CODE_BAD_CONFIG, afterRm)
      else (none, afterRm ++ [.removeConfig])

/-- `cli_drop_local_node` (cli_common.c): stop a running pg_autoctl (a
failed `kill` exits internal-error), remove the node from the monitor while
a state file exists (failure exits bad-state), then either destroy
everything via `stop_postgres_and_remove_pgdata_and_config`, or only stop
PostgreSQL (failure exits PG-control) and preserve the configuration file
and the data directory. `keeper_config_destroy` at the end is outside the
given sources; per the code's own messages ("Configuration file ... has been
preserved") and the spec, it does not remove the preserved files and is
modelled as having no filesystem effect. -/
def cli_drop_local_node (env : DropEnv) (dropAndDestroy : Bool) :
    Option Nat × List DropAction :=
  if env.pidFileExists ∧ env.pidReadOk ∧ ¬ env.killOk then
    (some EXIT_CODE_INTERNAL_ERROR, [])
  else if env.stateFileExists ∧ ¬ env.keeperRemoveOk then
    (some EXIT_CODE_BAD_STATE, [])
  else if dropAndDestroy then
    stop_postgres_and_remove_pgdata_and_config env
  else if ¬ env.pgCtlStopOk then (some EXIT_CODE_PGCTL, [])
  else (none, [.stopPostgres])

/-- The four user-provided certificate-file options. -/
def isUserCertOpt : Opt → Bool
  | .sslCAFile _ | .sslCRLFile _ | .serverCert _ | .serverKey _ => true
  | _ => false

/-- The SSL class an option chooses, if any. -/
def sslClassOf (o : Opt) : Option SSLCommandLineOptions :=
  match o with
  | .sslSelfSigned => some .selfSigned
  | .noSsl => some .noSSL
  | .sslCAFile _ | .sslCRLFile _ | .serverCert _ | .serverKey _ =>
      some .userProvided
  | _ => none

/-- An option that chooses one of the three SSL modes. -/
def isSSLChoiceOpt (o : Opt) : Bool := (sslClassOf o).isSome


/-- The two authentication options. -/
def isAuthOpt : Opt → Bool
  | .auth _ | .skipPgHba => true
  | _ => false

/-- The behavior of one parser step on the `authMethod` buffer, shared by
`createNodeStep` and `createMonitorStep`: a second authentication option
counts a parse error (and still overwrites the buffer). -/
structure AuthStepFacts (step : Opt → PState → StepResult) : Prop where
  mono : ∀ o t t', step o t = .cont t' → t.errors ≤ t'.errors
  authSet : ∀ v t t', step (.auth v) t = .cont t' →
    t'.authMethod = v ∧ (t.authMethod ≠ "" → t.errors < t'.errors)
  skipSet : ∀ t t', step .skipPgHba t = .cont t' →
    t'.authMethod = SKIP_HBA_AUTH_METHOD ∧
      (t.authMethod ≠ "" → t.errors < t'.errors)
  other : ∀ o, isAuthOpt o = false → ∀ t t', step o t = .cont t' →
    t'.authMethod = t.authMethod


/-- The running value of `--pgdata` on the command line: the last occurrence
wins. -/
def updPgdata (o : Opt) (a : String) : String :=
  match o with
  | .pgdata v => v
  | _ => a

/-- Final `--pgdata` value of a command line (empty when not given). -/
def lastPgdata (opts : List Opt) : String :=
  opts.foldl (fun a o => updPgdata o a) ""

/-- The running value of `--nodename` on the command line. -/
def updNodename (o : Opt) (a : String) : String :=
  match o with
  | .nodename v => v
  | _ => a

/-- Final `--nodename` value of a command line (empty when not given). -/
def lastNodename (opts : List Opt) : String :=
  opts.foldl (fun a o => updNodename o a) ""

/-- The running value of `--pgport` on the command line (an occurrence that
does not parse never reaches the stored field). -/
def updPgport (o : Opt) (a : Int) : Int :=
  match o with
  | .pgport v => (stringToInt v).getD a
  | _ => a

/-- Final `--pgport` value of a command line (0 when not given). -/
def lastPgport (opts : List Opt) : Int :=
  opts.foldl (fun a o => updPgport o a) 0

/-- The running value of the monitor URI. -/
def updMonitorUri (o : Opt) (a : String) : String :=
  match o with
  | .monitorUri v => v
  | _ => a

/-- The running value of the `monitorDisabled` flag. -/
def updMonitorDisabled (o : Opt) (a : Bool) : Bool :=
  match o with
  | .disableMonitor => true
  | _ => a


/-- The running value of the `--destroy` flag. -/
def updDestroy (o : Opt) (a : Bool) : Bool :=
  match o with
  | .destroy => true
  | _ => a

/-- The PGDATA contract of an option parser `parse : env → options → result`:
(1) when `--pgdata` is given with a non-empty (final) value, the `PGDATA`
environment variable is ignored — the result does not depend on it; (2) a
successful parse then stores that command-line value unchanged; (3) when
`--pgdata` is absent, a successful parse took its data directory from the
environment (so in particular, with the variable unset, no parse
succeeds). -/
def PgdataContract (parse : Option String → List Opt → ParseResult) : Prop :=
  (∀ e e' opts, lastPgdata opts ≠ "" → parse e opts = parse e' opts) ∧
  (∀ e opts s, lastPgdata opts ≠ "" → parse e opts = .ok s →
    s.pgdata = lastPgdata opts) ∧
  (∀ e opts s, (∀ v, .pgdata v ∉ opts) → parse e opts = .ok s →
    e = some s.pgdata)


/-- The behavior of one parser step on the SSL state, shared by
`createNodeStep` and `createMonitorStep`. -/
structure SSLStepFacts (step : Opt → PState → StepResult) : Prop where
  mono : ∀ o t t', step o t = .cont t' → t.errors ≤ t'.errors
  choice : ∀ o k, sslClassOf o = some k → ∀ t t', step o t = .cont t' →
    ((t.sslCmdLine = .unknown ∨ t.sslCmdLine = k) → t'.sslCmdLine = k) ∧
    (t.sslCmdLine ≠ .unknown → t.sslCmdLine ≠ k →
      t.errors < t'.errors ∧ t'.sslCmdLine = t.sslCmdLine)
  other : ∀ o, sslClassOf o = none → ∀ t t', step o t = .cont t' →
    t'.sslCmdLine = t.sslCmdLine


/-! ## Generic lemmas about `getopt_long` loops -/

section LoopLemmas

variable {step : Opt → PState → StepResult}

theorem runLoop_exit_mem {opts : List Opt} {s : PState} {c n : Nat}
    (h : runLoop step opts s = .inl c)
    (hc : ∀ o ∈ opts, ∀ t c', step o t = .exit c' → c' = n) : c = n := by
  induction opts generalizing s with
  | nil => simp [runLoop] at h
  | cons o rest ih =>
    rw [runLoop] at h
    cases hstep : step o s with
    | exit c' =>
      rw [hstep] at h
      injection h with hcc
      subst hcc
      exact hc o (List.mem_cons_self o rest) s c' hstep
    | cont s₁ =>
      rw [hstep] at h
      exact ih h (fun o' ho' => hc o' (List.mem_cons_of_mem _ ho'))

theorem runLoop_preserve {P : PState → Prop} {opts : List Opt} {s s' : PState}
    (h : runLoop step opts s = .inr s')
    (hpres : ∀ o ∈ opts, ∀ t t', step o t = .cont t' → P t → P t')
    (hP : P s) : P s' := by
  induction opts generalizing s with
  | nil => rw [runLoop] at h; cases h; exact hP
  | cons o rest ih =>
    rw [runLoop] at h
    cases hstep : step o s with
    | exit c => rw [hstep] at h; cases h
    | cont s₁ =>
      rw [hstep] at h
      exact ih h (fun o' ho' => hpres o' (List.mem_cons_of_mem _ ho'))
        (hpres o (List.mem_cons_self o rest) s s₁ hstep hP)

theorem runLoop_establish {P : PState → Prop} {opts : List Opt}
    {s s' : PState} {o₀ : Opt}
    (h : runLoop step opts s = .inr s') (hmem : o₀ ∈ opts)
    (hset : ∀ t t', step o₀ t = .cont t' → P t')
    (hpres : ∀ o ∈ opts, ∀ t t', step o t = .cont t' → P t → P t') : P s' := by
  induction opts generalizing s with
  | nil => cases hmem
  | cons o rest ih =>
    rw [runLoop] at h
    cases hstep : step o s with
    | exit c => rw [hstep] at h; cases h
    | cont s₁ =>
      rw [hstep] at h
      rcases List.mem_cons.mp hmem with rfl | hmem'
      · exact runLoop_preserve h
          (fun o' ho' => hpres o' (List.mem_cons_of_mem _ ho'))
          (hset s s₁ hstep)
      · exact ih h hmem' (fun o' ho' => hpres o' (List.mem_cons_of_mem _ ho'))

theorem runLoop_track {α : Type} {g : PState → α} {f : Opt → α → α}
    {opts : List Opt} {s s' : PState}
    (h : runLoop step opts s = .inr s')
    (hstep : ∀ o ∈ opts, ∀ t t', step o t = .cont t' → g t' = f o (g t)) :
    g s' = opts.foldl (fun a o => f o a) (g s) := by
  induction opts generalizing s with
  | nil => rw [runLoop] at h; cases h; rfl
  | cons o rest ih =>
    rw [runLoop] at h
    cases hstep' : step o s with
    | exit c => rw [hstep'] at h; cases h
    | cont s₁ =>
      rw [hstep'] at h
      rw [List.foldl_cons,
          ← hstep o (List.mem_cons_self o rest) s s₁ hstep']
      exact ih h (fun o' ho' => hstep o' (List.mem_cons_of_mem _ ho'))

/-- Monotonicity of the error counter across a whole loop, given it for one
step. -/
theorem runLoop_errors_pos {opts : List Opt} {s s' : PState}
    (mono : ∀ o t t', step o t = .cont t' → t.errors ≤ t'.errors)
    (h : runLoop step opts s = .inr s') (hs : 0 < s.errors) : 0 < s'.errors :=
  runLoop_preserve h
    (fun o _ t t' hst hp => lt_of_lt_of_le hp (mono o t t' hst)) hs

end LoopLemmas

/-! ## The SSL exclusivity state machine, generically

The SSL-choosing options are `--ssl-self-signed`, `--no-ssl` and the four
certificate-file options; `--ssl-mode` is not one of them. Each choosing
option carries an `SSLCommandLineOptions` class, and both create parsers
treat them identically: the first class is accepted, a repeat of the same
class is accepted, and a different class counts a parse error
(`cli_getopt_accept_ssl_options`). -/

theorem sslClassOf_ne_unknown {o : Opt} {k : SSLCommandLineOptions}
    (h : sslClassOf o = some k) : k ≠ .unknown := by
  cases o <;> simp [sslClassOf] at h <;> simp [← h]

/-- When the state already records an SSL class and a choosing option of a
different class is still to come, the loop ends with at least one error. -/
theorem runLoop_ssl_state_conflict {step : Opt → PState → StepResult}
    (F : SSLStepFacts step) {opts : List Opt} {s s' : PState}
    {k₀ : SSLCommandLineOptions}
    (h : runLoop step opts s = .inr s') (hstate : s.sslCmdLine = k₀)
    (hk₀ : k₀ ≠ .unknown)
    (hmem : ∃ o ∈ opts, ∃ k, sslClassOf o = some k ∧ k ≠ k₀) :
    0 < s'.errors := by
  induction opts generalizing s with
  | nil =>
    rcases hmem with ⟨o, ho, -⟩
    cases ho
  | cons o rest ih =>
    rw [runLoop] at h
    cases hstep : step o s with
    | exit c => rw [hstep] at h; cases h
    | cont s₁ =>
      rw [hstep] at h
      rcases hmem with ⟨o', ho', k, hk, hkne⟩
      rcases List.mem_cons.mp ho' with rfl | ho'
      · -- the conflicting option is the head
        have := (F.choice o' k hk s s₁ hstep).2
          (by rw [hstate]; exact hk₀) (by rw [hstate]; exact fun e => hkne e.symm)
        exact runLoop_errors_pos F.mono h ((Nat.zero_le _).trans_lt this.1)
      · -- the conflicting option is further on
        cases hcls : sslClassOf o with
        | none =>
          have hpres := F.other o hcls s s₁ hstep
          exact ih h (hpres.trans hstate) ⟨o', ho', k, hk, hkne⟩
        | some k' =>
          by_cases hkk : k' = k₀
          · have := (F.choice o k' hcls s s₁ hstep).1
              (Or.inr (by rw [hstate, hkk]))
            exact ih h (this.trans hkk) ⟨o', ho', k, hk, hkne⟩
          · have := (F.choice o k' hcls s s₁ hstep).2
              (by rw [hstate]; exact hk₀) (by rw [hstate]; exact fun e => hkk e.symm)
            exact runLoop_errors_pos F.mono h ((Nat.zero_le _).trans_lt this.1)

/-- Two SSL-choosing options of different classes on one command line leave
the loop with at least one parse error, whatever the starting state. -/
theorem runLoop_ssl_mixed {step : Opt → PState → StepResult}
    (F : SSLStepFacts step) {opts : List Opt} {s s' : PState}
    {o₁ o₂ : Opt} {k₁ k₂ : SSLCommandLineOptions}
    (h : runLoop step opts s = .inr s')
    (ho₁ : o₁ ∈ opts) (ho₂ : o₂ ∈ opts)
    (hk₁ : sslClassOf o₁ = some k₁) (hk₂ : sslClassOf o₂ = some k₂)
    (hne : k₁ ≠ k₂) : 0 < s'.errors := by
  induction opts generalizing s with
  | nil => cases ho₁
  | cons o rest ih =>
    rw [runLoop] at h
    cases hstep : step o s with
    | exit c => rw [hstep] at h; cases h
    | cont s₁ =>
      rw [hstep] at h
      cases hcls : sslClassOf o with
      | none =>
        have m₁ : o₁ ∈ rest := by
          rcases List.mem_cons.mp ho₁ with rfl | m
          · rw [hcls] at hk₁; cases hk₁
          · exact m
        have m₂ : o₂ ∈ rest := by
          rcases List.mem_cons.mp ho₂ with rfl | m
          · rw [hcls] at hk₂; cases hk₂
          · exact m
        exact ih h m₁ m₂
      | some k =>
        by_cases hk : s.sslCmdLine = .unknown ∨ s.sslCmdLine = k
        · -- the head's class is accepted; one of the two options still to
          -- come has a different class
          have hset : s₁.sslCmdLine = k := (F.choice o k hcls s s₁ hstep).1 hk
          by_cases hkk₁ : k₁ = k
          · -- then k₂ ≠ k, and o₂ must be in the tail
            have hm₂ : o₂ ∈ rest := by
              rcases List.mem_cons.mp ho₂ with rfl | m
              · rw [hcls] at hk₂; cases hk₂
                exact absurd (hkk₁.trans rfl) hne
              · exact m
            exact runLoop_ssl_state_conflict F h hset
              (sslClassOf_ne_unknown hcls)
              ⟨o₂, hm₂, k₂, hk₂, fun e => hne (hkk₁.trans e.symm)⟩
          · have hm₁ : o₁ ∈ rest := by
              rcases List.mem_cons.mp ho₁ with rfl | m
              · rw [hcls] at hk₁; cases hk₁; exact absurd rfl hkk₁
              · exact m
            exact runLoop_ssl_state_conflict F h hset
              (sslClassOf_ne_unknown hcls) ⟨o₁, hm₁, k₁, hk₁, hkk₁⟩
        · push_neg at hk
          have := (F.choice o k hcls s s₁ hstep).2 hk.1 hk.2
          exact runLoop_errors_pos F.mono h ((Nat.zero_le _).trans_lt this.1)

/-- With no SSL-choosing option on the command line, the SSL choice stays
what it was (`SSL_CLI_UNKNOWN` from the initial state). -/
theorem runLoop_ssl_unchanged {step : Opt → PState → StepResult}
    (F : SSLStepFacts step) {opts : List Opt} {s s' : PState}
    (h : runLoop step opts s = .inr s')
    (hno : ∀ o ∈ opts, isSSLChoiceOpt o = false) :
    s'.sslCmdLine = s.sslCmdLine := by
  exact runLoop_preserve (P := fun t => t.sslCmdLine = s.sslCmdLine) h
    (fun o ho t t' hst hp => by
      cases hcls : sslClassOf o with
      | some k =>
        exfalso
        have hc := hno o ho
        simp [isSSLChoiceOpt, hcls] at hc
      | none => exact (F.other o hcls t t' hst).trans hp)
    rfl

/-! ## The authentication-choice state machine, generically -/

/-- Once the authentication method is set, any further authentication option
on the command line leaves the loop with at least one parse error. -/
theorem runLoop_auth_nonempty {step : Opt → PState → StepResult}
    (F : AuthStepFacts step) {opts : List Opt} {s s' : PState}
    (h : runLoop step opts s = .inr s') (hne : s.authMethod ≠ "")
    (hmem : ∃ o ∈ opts, isAuthOpt o = true) : 0 < s'.errors := by
  induction opts generalizing s with
  | nil => rcases hmem with ⟨o, ho, -⟩; cases ho
  | cons o rest ih =>
    rw [runLoop] at h
    cases hstep : step o s with
    | exit c => rw [hstep] at h; cases h
    | cont s₁ =>
      rw [hstep] at h
      cases hao : isAuthOpt o with
      | true =>
        cases o <;> simp [isAuthOpt] at hao
        · rename_i v
          exact runLoop_errors_pos F.mono h
            ((Nat.zero_le _).trans_lt ((F.authSet v s s₁ hstep).2 hne))
        · exact runLoop_errors_pos F.mono h
            ((Nat.zero_le _).trans_lt ((F.skipSet s s₁ hstep).2 hne))
      | false =>
        have hpres := F.other o hao s s₁ hstep
        rcases hmem with ⟨o', ho', hao'⟩
        rcases List.mem_cons.mp ho' with rfl | ho'
        · rw [hao'] at hao; cases hao
        · exact ih h (ne_of_eq_of_ne hpres hne) ⟨o', ho', hao'⟩

/-- `--auth` with a non-empty argument together with `--skip-pg-hba`
(in either order) leaves the loop with at least one parse error. -/
theorem runLoop_auth_conflict {step : Opt → PState → StepResult}
    (F : AuthStepFacts step) {opts : List Opt} {s s' : PState} {a : String}
    (h : runLoop step opts s = .inr s')
    (hv : .auth a ∈ opts) (ha : a ≠ "") (hs : .skipPgHba ∈ opts) :
    0 < s'.errors := by
  induction opts generalizing s with
  | nil => cases hv
  | cons o rest ih =>
    rw [runLoop] at h
    cases hstep : step o s with
    | exit c => rw [hstep] at h; cases h
    | cont s₁ =>
      rw [hstep] at h
      by_cases hne : s.authMethod = ""
      · by_cases hao : isAuthOpt o = true
        · cases o <;> simp [isAuthOpt] at hao
          · -- head is `--auth v`
            rename_i v
            have hset := (F.authSet v s s₁ hstep).1
            have hm₂ : Opt.skipPgHba ∈ rest := by
              rcases List.mem_cons.mp hs with he | m
              · cases he
              · exact m
            by_cases hb : v = ""
            · have hm₁ : Opt.auth a ∈ rest := by
                rcases List.mem_cons.mp hv with he | m
                · injection he with he'; exact absurd (he'.trans hb) ha
                · exact m
              exact ih h hm₁ hm₂
            · exact runLoop_auth_nonempty F h (by rw [hset]; exact hb)
                ⟨.skipPgHba, hm₂, rfl⟩
          · -- head is `--skip-pg-hba`
            have hset := (F.skipSet s s₁ hstep).1
            have hm₁ : Opt.auth a ∈ rest := by
              rcases List.mem_cons.mp hv with he | m
              · cases he
              · exact m
            exact runLoop_auth_nonempty F h
              (by rw [hset]; simp [SKIP_HBA_AUTH_METHOD])
              ⟨.auth a, hm₁, rfl⟩
        · have hao' : isAuthOpt o = false := by
            cases hx : isAuthOpt o
            · rfl
            · exact absurd hx hao
          have hm₁ : Opt.auth a ∈ rest := by
            rcases List.mem_cons.mp hv with he | m
            · rw [← he] at hao'; simp [isAuthOpt] at hao'
            · exact m
          have hm₂ : Opt.skipPgHba ∈ rest := by
            rcases List.mem_cons.mp hs with he | m
            · rw [← he] at hao'; simp [isAuthOpt] at hao'
            · exact m
          exact ih h hm₁ hm₂
      · by_cases hao : isAuthOpt o = true
        · cases o <;> simp [isAuthOpt] at hao
          · rename_i v
            exact runLoop_errors_pos F.mono h
              ((Nat.zero_le _).trans_lt ((F.authSet v s s₁ hstep).2 hne))
          · exact runLoop_errors_pos F.mono h
              ((Nat.zero_le _).trans_lt ((F.skipSet s s₁ hstep).2 hne))
        · have hao' : isAuthOpt o = false := by
            cases hx : isAuthOpt o
            · rfl
            · exact absurd hx hao
          have hm₁ : Opt.auth a ∈ rest := by
            rcases List.mem_cons.mp hv with he | m
            · rw [← he] at hao'; simp [isAuthOpt] at hao'
            · exact m
          have hm₂ : Opt.skipPgHba ∈ rest := by
            rcases List.mem_cons.mp hs with he | m
            · rw [← he] at hao'; simp [isAuthOpt] at hao'
            · exact m
          exact ih h hm₁ hm₂

/-! ## Final values of option fields along a loop -/

/-! ## Step facts for `createNodeStep` -/

theorem createNodeStep_mono (ext : Ext) :
    ∀ o t t', createNodeStep ext o t = .cont t' → t.errors ≤ t'.errors := by
  intro o t t' h
  cases o <;>
    simp only [createNodeStep, sslFileStep, sslModeStep] at h <;>
    (repeat' split at h) <;>
    (try cases h) <;> simp <;> omega

theorem createNodeStep_exit_code (ext : Ext) :
    ∀ o t c, o ≠ .help → o ≠ .version →
      createNodeStep ext o t = .exit c → c = EXIT_CODE_BAD_ARGS := by
  intro o t c hh hv h
  cases o <;>
    simp only [createNodeStep, sslFileStep, sslModeStep] at h <;>
    (repeat' split at h) <;>
    (try cases h) <;> simp_all

theorem cli_getopt_accept_ssl_options_eq_true
    {n c : SSLCommandLineOptions} :
    cli_getopt_accept_ssl_options n c = true ↔ (c = .unknown ∨ c = n) := by
  cases n <;> cases c <;> simp [cli_getopt_accept_ssl_options]

theorem createNodeStep_sslFacts (ext : Ext) :
    SSLStepFacts (createNodeStep ext) := by
  refine ⟨createNodeStep_mono ext, ?_, ?_⟩
  · intro o k hk t t' h
    cases o <;> simp [sslClassOf] at hk <;> (try cases hk) <;>
      simp only [createNodeStep, sslFileStep] at h <;>
      (split at h <;> cases h <;> rename_i hacc) <;>
      first
        | exact ⟨fun _ => by simp,
            fun h₁ h₂ =>
              ((cli_getopt_accept_ssl_options_eq_true.mp hacc).elim
                (fun e => absurd e h₁) (fun e => absurd e h₂))⟩
        | (refine ⟨fun hcase => ?_,
              fun h₁ h₂ => ⟨by simpa using Nat.lt_succ_self t.errors, by simp⟩⟩
           exact absurd (cli_getopt_accept_ssl_options_eq_true.mpr hcase) hacc)
  · intro o hcls t t' h
    cases o <;> simp [sslClassOf] at hcls <;>
      simp only [createNodeStep, sslModeStep] at h <;>
      (repeat' split at h) <;>
      (try cases h) <;> simp

theorem createNodeStep_authFacts (ext : Ext) :
    AuthStepFacts (createNodeStep ext) := by
  refine ⟨createNodeStep_mono ext, ?_, ?_, ?_⟩
  · intro v t t' h
    simp only [createNodeStep] at h
    split at h <;> cases h <;> simp_all
  · intro t t' h
    simp only [createNodeStep] at h
    split at h <;> cases h <;> simp_all
  · intro o ho t t' h
    cases o <;> simp [isAuthOpt] at ho <;>
      simp only [createNodeStep, sslFileStep, sslModeStep] at h <;>
      (repeat' split at h) <;>
      (try cases h) <;> simp

theorem createNodeStep_pgdata (ext : Ext) :
    ∀ o t t', createNodeStep ext o t = .cont t' →
      t'.pgdata = updPgdata o t.pgdata := by
  intro o t t' h
  cases o <;>
    simp only [createNodeStep, sslFileStep, sslModeStep, updPgdata] at h ⊢ <;>
    (repeat' split at h) <;>
    (try cases h) <;> simp

theorem createNodeStep_monitorUri (ext : Ext) :
    ∀ o t t', createNodeStep ext o t = .cont t' →
      t'.monitor_pguri = updMonitorUri o t.monitor_pguri := by
  intro o t t' h
  cases o <;>
    simp only [createNodeStep, sslFileStep, sslModeStep, updMonitorUri] at h ⊢ <;>
    (repeat' split at h) <;>
    (try cases h) <;> simp

theorem createNodeStep_monitorDisabled (ext : Ext) :
    ∀ o t t', createNodeStep ext o t = .cont t' →
      t'.monitorDisabled = updMonitorDisabled o t.monitorDisabled := by
  intro o t t' h
  cases o <;>
    simp only [createNodeStep, sslFileStep, sslModeStep,
               updMonitorDisabled] at h ⊢ <;>
    (repeat' split at h) <;>
    (try cases h) <;> simp

/-! ## Step facts for `createMonitorStep` -/

theorem createMonitorStep_mono :
    ∀ o t t', createMonitorStep o t = .cont t' → t.errors ≤ t'.errors := by
  intro o t t' h
  cases o <;>
    simp only [createMonitorStep, sslFileStep, sslModeStep] at h <;>
    (repeat' split at h) <;>
    (try cases h) <;> simp

theorem createMonitorStep_exit_code :
    ∀ o t c, o ≠ .help → o ≠ .version →
      createMonitorStep o t = .exit c → c = EXIT_CODE_BAD_ARGS := by
  intro o t c hh hv h
  cases o <;>
    simp only [createMonitorStep, sslFileStep, sslModeStep] at h <;>
    (repeat' split at h) <;>
    (try cases h) <;> simp_all

theorem createMonitorStep_sslFacts : SSLStepFacts createMonitorStep := by
  refine ⟨createMonitorStep_mono, ?_, ?_⟩
  · intro o k hk t t' h
    cases o <;> simp [sslClassOf] at hk <;> (try cases hk) <;>
      simp only [createMonitorStep, sslFileStep] at h <;>
      (split at h <;> cases h <;> rename_i hacc) <;>
      first
        | exact ⟨fun _ => by simp,
            fun h₁ h₂ =>
              ((cli_getopt_accept_ssl_options_eq_true.mp hacc).elim
                (fun e => absurd e h₁) (fun e => absurd e h₂))⟩
        | (refine ⟨fun hcase => ?_,
              fun h₁ h₂ => ⟨by simpa using Nat.lt_succ_self t.errors, by simp⟩⟩
           exact absurd (cli_getopt_accept_ssl_options_eq_true.mpr hcase) hacc)
  · intro o hcls t t' h
    cases o <;> simp [sslClassOf] at hcls <;>
      simp only [createMonitorStep, sslModeStep] at h <;>
      (repeat' split at h) <;>
      (try cases h) <;> simp

theorem createMonitorStep_authFacts : AuthStepFacts createMonitorStep := by
  refine ⟨createMonitorStep_mono, ?_, ?_, ?_⟩
  · intro v t t' h
    simp only [createMonitorStep] at h
    split at h <;> cases h <;> simp_all
  · intro t t' h
    simp only [createMonitorStep] at h
    split at h <;> cases h <;> simp_all
  · intro o ho t t' h
    cases o <;> simp [isAuthOpt] at ho <;>
      simp only [createMonitorStep, sslFileStep, sslModeStep] at h <;>
      (repeat' split at h) <;>
      (try cases h) <;> simp

theorem createMonitorStep_pgdata :
    ∀ o t t', createMonitorStep o t = .cont t' →
      t'.pgdata = updPgdata o t.pgdata := by
  intro o t t' h
  cases o <;>
    simp only [createMonitorStep, sslFileStep, sslModeStep, updPgdata] at h ⊢ <;>
    (repeat' split at h) <;>
    (try cases h) <;> simp

/-! ## Step facts for `dropNodeStep` -/

theorem dropNodeStep_exit_code :
    ∀ o t c, o ≠ .help → o ≠ .version →
      dropNodeStep o t = .exit c → c = EXIT_CODE_BAD_ARGS := by
  intro o t c hh hv h
  cases o <;>
    simp only [dropNodeStep] at h <;>
    (repeat' split at h) <;>
    (try cases h) <;> simp_all

theorem dropNodeStep_pgdata :
    ∀ o t t', dropNodeStep o t = .cont t' →
      t'.pgdata = updPgdata o t.pgdata := by
  intro o t t' h
  cases o <;>
    simp only [dropNodeStep, updPgdata] at h ⊢ <;>
    (repeat' split at h) <;>
    (try cases h) <;> simp

theorem dropNodeStep_nodename :
    ∀ o t t', dropNodeStep o t = .cont t' →
      t'.nodename = updNodename o t.nodename := by
  intro o t t' h
  cases o <;>
    simp only [dropNodeStep, updNodename] at h ⊢ <;>
    (repeat' split at h) <;>
    (try cases h) <;> simp

theorem dropNodeStep_pgport :
    ∀ o t t', dropNodeStep o t = .cont t' →
      t'.pgport = updPgport o t.pgport := by
  intro o t t' h
  cases o <;>
    simp only [dropNodeStep, updPgport] at h ⊢ <;>
    (repeat' split at h) <;>
    (try cases h) <;> simp_all

theorem dropNodeStep_destroy :
    ∀ o t t', dropNodeStep o t = .cont t' →
      t'.dropAndDestroy = updDestroy o t.dropAndDestroy := by
  intro o t t' h
  cases o <;>
    simp only [dropNodeStep, updDestroy] at h ⊢ <;>
    (repeat' split at h) <;>
    (try cases h) <;> simp

/-! ## Step facts for the remaining parsers -/

theorem getoptPgdataStep_exit_code :
    ∀ o t c, o ≠ .help → getoptPgdataStep o t = .exit c →
      c = EXIT_CODE_QUIT := by
  intro o t c hh h
  cases o <;> simp only [getoptPgdataStep] at h <;> (try cases h) <;> simp_all

theorem getoptPgdataStep_pgdata :
    ∀ o t t', getoptPgdataStep o t = .cont t' →
      t'.pgdata = updPgdata o t.pgdata := by
  intro o t t' h
  cases o <;>
    simp only [getoptPgdataStep, updPgdata] at h ⊢ <;>
    (try cases h) <;> simp

theorem getoptPgdataStep_printVersion :
    ∀ o t t', getoptPgdataStep o t = .cont t' →
      t'.printVersion = (match o with
                         | .version => true
                         | _ => t.printVersion) := by
  intro o t t' h
  cases o <;>
    simp only [getoptPgdataStep] at h ⊢ <;>
    (try cases h) <;> simp

theorem showStateStep_exit_code :
    ∀ o t c, o ≠ .help → o ≠ .version →
      showStateStep o t = .exit c → c = EXIT_CODE_BAD_ARGS := by
  intro o t c hh hv h
  cases o <;>
    simp only [showStateStep] at h <;>
    (repeat' split at h) <;>
    (try cases h) <;> simp_all

theorem showStateStep_pgdata :
    ∀ o t t', showStateStep o t = .cont t' →
      t'.pgdata = updPgdata o t.pgdata := by
  intro o t t' h
  cases o <;>
    simp only [showStateStep, updPgdata] at h ⊢ <;>
    (repeat' split at h) <;>
    (try cases h) <;> simp

theorem showNodesStep_exit_code :
    ∀ o t c, o ≠ .help → o ≠ .version →
      showNodesStep o t = .exit c → c = EXIT_CODE_BAD_ARGS := by
  intro o t c hh hv h
  cases o <;>
    simp only [showNodesStep] at h <;>
    (repeat' split at h) <;>
    (try cases h) <;> simp_all

theorem showNodesStep_pgdata :
    ∀ o t t', showNodesStep o t = .cont t' →
      t'.pgdata = updPgdata o t.pgdata := by
  intro o t t' h
  cases o <;>
    simp only [showNodesStep, updPgdata] at h ⊢ <;>
    (repeat' split at h) <;>
    (try cases h) <;> simp

theorem showUriStep_exit_code :
    ∀ o t c, o ≠ .help → o ≠ .version →
      showUriStep o t = .exit c → c = EXIT_CODE_BAD_ARGS := by
  intro o t c hh hv h
  cases o <;>
    simp only [showUriStep] at h <;>
    (try cases h) <;> simp_all

theorem showUriStep_pgdata :
    ∀ o t t', showUriStep o t = .cont t' →
      t'.pgdata = updPgdata o t.pgdata := by
  intro o t t' h
  cases o <;>
    simp only [showUriStep, updPgdata] at h ⊢ <;>
    (try cases h) <;> simp

theorem showFileStep_exit_code :
    ∀ o t c, o ≠ .help → o ≠ .version →
      showFileStep o t = .exit c → c = EXIT_CODE_BAD_ARGS := by
  intro o t c hh hv h
  cases o <;>
    simp only [showFileStep] at h <;>
    (try cases h) <;> simp_all

theorem showFileStep_pgdata :
    ∀ o t t', showFileStep o t = .cont t' →
      t'.pgdata = updPgdata o t.pgdata := by
  intro o t t' h
  cases o <;>
    simp only [showFileStep, updPgdata] at h ⊢ <;>
    (try cases h) <;> simp

theorem printVersionStep_cont :
    ∀ o t, o ≠ .help → printVersionStep o t ≠ .exit c := by
  intro o t hh h
  cases o <;> simp only [printVersionStep] at h <;> (try cases h) <;> simp_all

/-! ## Facts about `resolvePgdata` and the post-loop checks -/

theorem resolvePgdata_of_ne {e : Option String} {s : PState}
    (h : s.pgdata ≠ "") : resolvePgdata e s = some s := by
  simp [resolvePgdata, h]

theorem resolvePgdata_fields {e : Option String} {s t : PState}
    (h : resolvePgdata e s = some t) :
    t.sslCmdLine = s.sslCmdLine ∧ t.authMethod = s.authMethod ∧
    t.monitor_pguri = s.monitor_pguri ∧
    t.monitorDisabled = s.monitorDisabled ∧
    t.candidatePriority = s.candidatePriority ∧ t.errors = s.errors ∧
    t.nodename = s.nodename ∧ t.pgport = s.pgport ∧
    t.dropAndDestroy = s.dropAndDestroy ∧ t.pg_ctl = s.pg_ctl ∧
    t.fileSelection = s.fileSelection := by
  simp only [resolvePgdata] at h
  split at h
  · cases h; simp
  · cases e with
    | none => cases h
    | some d => cases h; simp

theorem resolvePgdata_pgdata {e : Option String} {s t : PState}
    (h : resolvePgdata e s = some t) :
    (s.pgdata ≠ "" → t = s) ∧ (s.pgdata = "" → e = some t.pgdata) := by
  simp only [resolvePgdata] at h
  split at h
  · rename_i hne
    cases h
    exact ⟨fun _ => rfl, fun he => absurd he hne⟩
  · rename_i hne
    cases e with
    | none => cases h
    | some d => cases h; exact ⟨fun hp => absurd hp hne, fun _ => rfl⟩

theorem resolvePgdata_none {s : PState} (hp : s.pgdata = "") :
    resolvePgdata none s = none := by
  simp [resolvePgdata, hp]

/-! ### `cli_create_node_check` -/

theorem cli_create_node_check_errors {e : Option String} {ext : Ext}
    {s : PState} (h : 0 < s.errors) :
    cli_create_node_check e ext s = .exit EXIT_CODE_BAD_ARGS := by
  simp [cli_create_node_check, h]

theorem cli_create_node_check_auth {e : Option String} {ext : Ext}
    {s : PState} (h0 : s.authMethod = "") :
    cli_create_node_check e ext s = .exit EXIT_CODE_BAD_ARGS := by
  simp only [cli_create_node_check]
  split
  · rfl
  · cases hr : resolvePgdata e s with
    | none => simp
    | some t =>
      have ht := (resolvePgdata_fields hr).2.1
      simp [ht, h0]

theorem cli_create_node_check_sslUnknown {e : Option String} {ext : Ext}
    {s : PState} (h0 : s.sslCmdLine = .unknown) :
    cli_create_node_check e ext s = .exit EXIT_CODE_BAD_ARGS := by
  simp only [cli_create_node_check]
  split
  · rfl
  · cases hr : resolvePgdata e s with
    | none => simp
    | some t =>
      have ht := (resolvePgdata_fields hr).1
      simp only []
      split
      · rfl
      · simp [ht, h0]

theorem cli_create_node_check_monitor_both {e : Option String} {ext : Ext}
    {s : PState} (hm : s.monitor_pguri ≠ "") (hd : s.monitorDisabled = true) :
    cli_create_node_check e ext s = .exit EXIT_CODE_BAD_ARGS := by
  simp only [cli_create_node_check]
  split
  · rfl
  · cases hr : resolvePgdata e s with
    | none => simp
    | some t =>
      have hf := resolvePgdata_fields hr
      simp only []
      split
      · rfl
      · split
        · rfl
        · split
          · rfl
          · split
            · rfl
            · rename_i hcond
              exact absurd ⟨hf.2.2.1.trans_ne hm, hf.2.2.2.1.trans hd⟩ hcond

theorem cli_create_node_check_monitor_neither {e : Option String} {ext : Ext}
    {s : PState} (hm : s.monitor_pguri = "") (hd : s.monitorDisabled = false) :
    cli_create_node_check e ext s = .exit EXIT_CODE_BAD_ARGS := by
  simp only [cli_create_node_check]
  split
  · rfl
  · cases hr : resolvePgdata e s with
    | none => simp
    | some t =>
      have hf := resolvePgdata_fields hr
      simp only []
      split
      · rfl
      · split
        · rfl
        · split
          · rfl
          · split
            · rfl
            · split
              · rfl
              · rename_i hcond
                exact absurd ⟨hf.2.2.1.trans hm, hf.2.2.2.1.trans hd⟩ hcond

theorem cli_create_node_check_env {e e' : Option String} {ext : Ext}
    {s : PState} (h : s.pgdata ≠ "") :
    cli_create_node_check e ext s = cli_create_node_check e' ext s := by
  simp only [cli_create_node_check, resolvePgdata_of_ne h]

theorem applyMonitorDisabled_fields (s : PState) :
    (applyMonitorDisabled s).pgdata = s.pgdata ∧
    (applyMonitorDisabled s).authMethod = s.authMethod ∧
    (applyMonitorDisabled s).candidatePriority = s.candidatePriority ∧
    (s.monitorDisabled = true →
      (applyMonitorDisabled s).monitor_pguri = PG_AUTOCTL_MONITOR_DISABLED) := by
  simp only [applyMonitorDisabled]
  split <;> simp_all

theorem cli_create_node_check_ok {e : Option String} {ext : Ext}
    {s t : PState} (h : cli_create_node_check e ext s = .ok t) :
    (s.monitorDisabled = true →
      t.monitor_pguri = PG_AUTOCTL_MONITOR_DISABLED) ∧
    t.candidatePriority = s.candidatePriority ∧
    t.authMethod = s.authMethod ∧
    (s.pgdata ≠ "" → t.pgdata = s.pgdata) ∧
    (s.pgdata = "" → e = some t.pgdata) := by
  simp only [cli_create_node_check] at h
  split at h
  · cases h
  · cases hr : resolvePgdata e s with
    | none => simp only [hr] at h; cases h
    | some u =>
      simp only [hr] at h
      have hf := resolvePgdata_fields hr
      have hp := resolvePgdata_pgdata hr
      have ha := applyMonitorDisabled_fields u
      split at h
      · cases h
      · split at h
        · cases h
        · split at h
          · cases h
          · split at h
            · cases h
            · split at h
              · cases h
              · split at h
                · cases h
                · cases h
                  refine ⟨?_, ?_, ?_, ?_, ?_⟩
                  · intro hd
                    exact ha.2.2.2 (hf.2.2.2.1.trans hd)
                  · exact ha.2.2.1.trans hf.2.2.2.2.1
                  · exact ha.2.1.trans hf.2.1
                  · intro hne
                    rw [ha.1, (hp.1 hne)]
                  · intro hpe
                    rw [ha.1]
                    exact hp.2 hpe

/-! ### `cli_create_monitor_check` -/

theorem cli_create_monitor_check_errors {e : Option String} {ext : Ext}
    {s : PState} (h : 0 < s.errors) :
    cli_create_monitor_check e ext s = .exit EXIT_CODE_BAD_ARGS := by
  simp [cli_create_monitor_check, h]

theorem cli_create_monitor_check_auth {e : Option String} {ext : Ext}
    {s : PState} (h0 : s.authMethod = "") :
    cli_create_monitor_check e ext s = .exit EXIT_CODE_BAD_ARGS := by
  simp only [cli_create_monitor_check]
  split
  · rfl
  · cases hr : resolvePgdata e s with
    | none => simp
    | some t =>
      have ht := (resolvePgdata_fields hr).2.1
      simp [hr, ht, h0]

theorem cli_create_monitor_check_sslUnknown {e : Option String} {ext : Ext}
    {s : PState} (h0 : s.sslCmdLine = .unknown) :
    cli_create_monitor_check e ext s = .exit EXIT_CODE_BAD_ARGS := by
  simp only [cli_create_monitor_check]
  split
  · rfl
  · cases hr : resolvePgdata e s with
    | none => simp
    | some t =>
      have ht := (resolvePgdata_fields hr).1
      simp only [hr]
      split
      · rfl
      · simp [ht, h0]

theorem cli_create_monitor_check_env {e e' : Option String} {ext : Ext}
    {s : PState} (h : s.pgdata ≠ "") :
    cli_create_monitor_check e ext s = cli_create_monitor_check e' ext s := by
  simp only [cli_create_monitor_check, resolvePgdata_of_ne h]

theorem set_first_pgctl_ok {ext : Ext} {s t : PState}
    (h : set_first_pgctl ext s = .ok t) :
    t.pgdata = s.pgdata ∧ t.authMethod = s.authMethod := by
  simp only [set_first_pgctl] at h
  cases hs : ext.searchPgctl with
  | none => simp only [hs] at h; cases h
  | some p =>
    simp only [hs] at h
    cases hv : ext.pgctlVersion p with
    | none => simp only [hv] at h; cases h
    | some v => simp only [hv] at h; cases h; simp

theorem cli_create_monitor_check_ok {e : Option String} {ext : Ext}
    {s t : PState} (h : cli_create_monitor_check e ext s = .ok t) :
    t.authMethod = s.authMethod ∧
    (s.pgdata ≠ "" → t.pgdata = s.pgdata) ∧
    (s.pgdata = "" → e = some t.pgdata) := by
  simp only [cli_create_monitor_check] at h
  split at h
  · cases h
  · cases hr : resolvePgdata e s with
    | none => simp only [hr] at h; cases h
    | some u =>
      simp only [hr] at h
      have hf := resolvePgdata_fields hr
      have hp := resolvePgdata_pgdata hr
      split at h
      · cases h
      · split at h
        · cases h
        · split at h
          · cases h
          · cases hc : (if u.pg_ctl = "" then set_first_pgctl ext u
                        else ParseResult.ok u) with
            | exit c => simp only [hc] at h; cases h
            | ok w =>
              simp only [hc] at h
              have hw : w.pgdata = u.pgdata ∧ w.authMethod = u.authMethod := by
                split at hc
                · exact set_first_pgctl_ok hc
                · cases hc; exact ⟨rfl, rfl⟩
              split at h <;> cases h <;> refine ⟨?_, ?_, ?_⟩
              · simpa using hw.2.trans hf.2.1
              · intro hne
                have hu : u.pgdata = s.pgdata := by rw [hp.1 hne]
                simpa using hw.1.trans hu
              · intro hpe
                simpa [hw.1] using hp.2 hpe
              · simpa using hw.2.trans hf.2.1
              · intro hne
                have hu : u.pgdata = s.pgdata := by rw [hp.1 hne]
                simpa using hw.1.trans hu
              · intro hpe
                simpa [hw.1] using hp.2 hpe

/-! ### `prepare_keeper_options` -/

theorem prepare_keeper_options_noconfig {e : Option String} {ext : Ext}
    {s : PState} (hc : ∀ p, ext.configFileExists p = false) :
    prepare_keeper_options e ext s = .exit EXIT_CODE_BAD_ARGS := by
  simp only [prepare_keeper_options]
  cases hr : resolvePgdata e s with
  | none => simp
  | some t =>
    simp only []
    split
    · rfl
    · simp [hc]

theorem prepare_keeper_options_env {e e' : Option String} {ext : Ext}
    {s : PState} (h : s.pgdata ≠ "") :
    prepare_keeper_options e ext s = prepare_keeper_options e' ext s := by
  simp only [prepare_keeper_options, resolvePgdata_of_ne h]

theorem prepare_keeper_options_ok {e : Option String} {ext : Ext}
    {s t : PState} (h : prepare_keeper_options e ext s = .ok t) :
    (s.pgdata ≠ "" → t = s) ∧ (s.pgdata = "" → e = some t.pgdata) ∧
    t.nodename = s.nodename ∧ t.pgport = s.pgport ∧
    t.dropAndDestroy = s.dropAndDestroy := by
  simp only [prepare_keeper_options] at h
  cases hr : resolvePgdata e s with
  | none => simp only [hr] at h; cases h
  | some u =>
    simp only [hr] at h
    have hf := resolvePgdata_fields hr
    have hp := resolvePgdata_pgdata hr
    split at h
    · cases h
    · split at h
      · cases h
      · cases h
        exact ⟨hp.1, hp.2, hf.2.2.2.2.2.2.1, hf.2.2.2.2.2.2.2.1,
               hf.2.2.2.2.2.2.2.2.1⟩

/-! ## Parser-level lemmas -/

theorem runLoop_lastPgdata {step : Opt → PState → StepResult}
    (hstep : ∀ o t t', step o t = .cont t' → t'.pgdata = updPgdata o t.pgdata)
    {opts : List Opt} {s s' : PState} (h : runLoop step opts s = .inr s') :
    s'.pgdata = opts.foldl (fun a o => updPgdata o a) s.pgdata :=
  runLoop_track h (fun o _ t t' ht => hstep o t t' ht)

theorem runLoop_no_pgdata {step : Opt → PState → StepResult}
    (hstep : ∀ o t t', step o t = .cont t' → t'.pgdata = updPgdata o t.pgdata)
    {opts : List Opt} {s s' : PState} (h : runLoop step opts s = .inr s')
    (hno : ∀ v, .pgdata v ∉ opts) : s'.pgdata = s.pgdata :=
  runLoop_preserve (P := fun t => t.pgdata = s.pgdata) h
    (fun o ho t t' ht hp => by
      have hupd := hstep o t t' ht
      have hp' : t.pgdata = s.pgdata := hp
      show t'.pgdata = s.pgdata
      cases o <;>
        first
          | exact absurd ho (hno _)
          | (rw [hupd]; simpa [updPgdata] using hp'))
    rfl

theorem cli_create_node_getopts_pgdataContract (ext : Ext) :
    PgdataContract (fun e opts => cli_create_node_getopts e ext opts) := by
  refine ⟨?_, ?_, ?_⟩
  · intro e e' opts hl
    simp only [cli_create_node_getopts]
    cases hr : runLoop (createNodeStep ext) opts createNodeInit with
    | inl c => rfl
    | inr s' =>
      have hp : s'.pgdata = lastPgdata opts := by
        simpa [lastPgdata, createNodeInit] using
          runLoop_lastPgdata (createNodeStep_pgdata ext) hr
      exact cli_create_node_check_env (by rw [hp]; exact hl)
  · intro e opts s hl hok
    simp only [cli_create_node_getopts] at hok
    cases hr : runLoop (createNodeStep ext) opts createNodeInit with
    | inl c => rw [hr] at hok; cases hok
    | inr s' =>
      rw [hr] at hok
      have hp : s'.pgdata = lastPgdata opts := by
        simpa [lastPgdata, createNodeInit] using
          runLoop_lastPgdata (createNodeStep_pgdata ext) hr
      have hinv := cli_create_node_check_ok hok
      rw [hinv.2.2.2.1 (by rw [hp]; exact hl), hp]
  · intro e opts s hno hok
    simp only [cli_create_node_getopts] at hok
    cases hr : runLoop (createNodeStep ext) opts createNodeInit with
    | inl c => rw [hr] at hok; cases hok
    | inr s' =>
      rw [hr] at hok
      have hp : s'.pgdata = "" := by
        simpa [createNodeInit] using
          runLoop_no_pgdata (createNodeStep_pgdata ext) hr hno
      exact (cli_create_node_check_ok hok).2.2.2.2 hp

theorem cli_create_monitor_getopts_pgdataContract (ext : Ext) :
    PgdataContract (fun e opts => cli_create_monitor_getopts e ext opts) := by
  refine ⟨?_, ?_, ?_⟩
  · intro e e' opts hl
    simp only [cli_create_monitor_getopts]
    cases hr : runLoop createMonitorStep opts (createMonitorInit ext) with
    | inl c => rfl
    | inr s' =>
      have hp : s'.pgdata = lastPgdata opts := by
        simpa [lastPgdata, createMonitorInit] using
          runLoop_lastPgdata createMonitorStep_pgdata hr
      exact cli_create_monitor_check_env (by rw [hp]; exact hl)
  · intro e opts s hl hok
    simp only [cli_create_monitor_getopts] at hok
    cases hr : runLoop createMonitorStep opts (createMonitorInit ext) with
    | inl c => rw [hr] at hok; cases hok
    | inr s' =>
      rw [hr] at hok
      have hp : s'.pgdata = lastPgdata opts := by
        simpa [lastPgdata, createMonitorInit] using
          runLoop_lastPgdata createMonitorStep_pgdata hr
      have hinv := cli_create_monitor_check_ok hok
      rw [hinv.2.1 (by rw [hp]; exact hl), hp]
  · intro e opts s hno hok
    simp only [cli_create_monitor_getopts] at hok
    cases hr : runLoop createMonitorStep opts (createMonitorInit ext) with
    | inl c => rw [hr] at hok; cases hok
    | inr s' =>
      rw [hr] at hok
      have hp : s'.pgdata = "" := by
        simpa [createMonitorInit] using
          runLoop_no_pgdata createMonitorStep_pgdata hr hno
      exact (cli_create_monitor_check_ok hok).2.2 hp

/-! ### The remaining post-loop checks -/

theorem cli_drop_node_getopts_check_env {e e' : Option String} {ext : Ext}
    {s : PState} (h : s.pgdata ≠ "") :
    cli_drop_node_getopts_check e ext s = cli_drop_node_getopts_check e' ext s := by
  simp only [cli_drop_node_getopts_check]
  split
  · rfl
  · exact prepare_keeper_options_env h

theorem cli_drop_node_getopts_check_ok {e : Option String} {ext : Ext}
    {s t : PState} (h : cli_drop_node_getopts_check e ext s = .ok t) :
    (s.pgdata ≠ "" → t = s) ∧ (s.pgdata = "" → e = some t.pgdata) := by
  simp only [cli_drop_node_getopts_check] at h
  split at h
  · cases h
  · exact ⟨(prepare_keeper_options_ok h).1, (prepare_keeper_options_ok h).2.1⟩

theorem cli_getopt_pgdata_check_env {e e' : Option String} {ext : Ext}
    {s : PState} (h : s.pgdata ≠ "") :
    cli_getopt_pgdata_check e ext s = cli_getopt_pgdata_check e' ext s := by
  simp only [cli_getopt_pgdata_check]
  split
  · rfl
  · split
    · rfl
    · exact prepare_keeper_options_env h

theorem cli_getopt_pgdata_check_ok {e : Option String} {ext : Ext}
    {s t : PState} (h : cli_getopt_pgdata_check e ext s = .ok t) :
    (s.pgdata ≠ "" → t = s) ∧ (s.pgdata = "" → e = some t.pgdata) := by
  simp only [cli_getopt_pgdata_check] at h
  split at h
  · cases h
  · split at h
    · cases h
    · exact ⟨(prepare_keeper_options_ok h).1, (prepare_keeper_options_ok h).2.1⟩

theorem cli_show_state_check_env {e e' : Option String} {s : PState}
    (h : s.pgdata ≠ "") :
    cli_show_state_check e s = cli_show_state_check e' s := by
  simp only [cli_show_state_check, resolvePgdata_of_ne h]

theorem cli_show_state_check_ok {e : Option String} {s t : PState}
    (h : cli_show_state_check e s = .ok t) :
    (s.pgdata ≠ "" → t = s) ∧ (s.pgdata = "" → e = some t.pgdata) := by
  simp only [cli_show_state_check] at h
  split at h
  · cases h
  · cases hre : resolvePgdata e s with
    | none => simp only [hre] at h; cases h
    | some u =>
      simp only [hre] at h
      cases h
      exact resolvePgdata_pgdata hre

theorem cli_show_uri_check_env {e e' : Option String} {ext : Ext}
    {s : PState} (h : s.pgdata ≠ "") :
    cli_show_uri_check e ext s = cli_show_uri_check e' ext s := by
  simp only [cli_show_uri_check, resolvePgdata_of_ne h]

theorem cli_show_uri_check_ok {e : Option String} {ext : Ext} {s t : PState}
    (h : cli_show_uri_check e ext s = .ok t) :
    (s.pgdata ≠ "" → t = s) ∧ (s.pgdata = "" → e = some t.pgdata) := by
  simp only [cli_show_uri_check] at h
  split at h
  · cases h
  · cases hre : resolvePgdata e s with
    | none => simp only [hre] at h; cases h
    | some u =>
      simp only [hre] at h
      split at h
      · cases h
      · cases h
        exact resolvePgdata_pgdata hre

theorem cli_show_file_check_env {e e' : Option String} {ext : Ext}
    {s : PState} (h : s.pgdata ≠ "") :
    cli_show_file_check e ext s = cli_show_file_check e' ext s := by
  simp only [cli_show_file_check, resolvePgdata_of_ne h]

theorem cli_show_file_check_ok {e : Option String} {ext : Ext} {s t : PState}
    (h : cli_show_file_check e ext s = .ok t) :
    (s.pgdata ≠ "" → t.pgdata = s.pgdata) ∧
    (s.pgdata = "" → e = some t.pgdata) := by
  simp only [cli_show_file_check] at h
  cases hre : resolvePgdata e s with
  | none => simp only [hre] at h; cases h
  | some u =>
    simp only [hre] at h
    have hp := resolvePgdata_pgdata hre
    split at h
    · cases h
    · split at h <;> cases h
      · refine ⟨?_, ?_⟩
        · intro hne
          simpa using congrArg PState.pgdata (hp.1 hne)
        · intro hpe
          simpa using hp.2 hpe
      · refine ⟨?_, ?_⟩
        · intro hne
          exact congrArg PState.pgdata (hp.1 hne)
        · exact hp.2

/-! ### The PGDATA contracts of the remaining parsers -/

theorem cli_drop_node_getopts_pgdataContract (ext : Ext) :
    PgdataContract (fun e opts => cli_drop_node_getopts e ext opts) := by
  refine ⟨?_, ?_, ?_⟩
  · intro e e' opts hl
    simp only [cli_drop_node_getopts]
    cases hr : runLoop dropNodeStep opts {} with
    | inl c => rfl
    | inr s' =>
      have hp : s'.pgdata = lastPgdata opts := by
        simpa [lastPgdata] using runLoop_lastPgdata dropNodeStep_pgdata hr
      exact cli_drop_node_getopts_check_env (by rw [hp]; exact hl)
  · intro e opts s hl hok
    simp only [cli_drop_node_getopts] at hok
    cases hr : runLoop dropNodeStep opts {} with
    | inl c => rw [hr] at hok; cases hok
    | inr s' =>
      rw [hr] at hok
      have hp : s'.pgdata = lastPgdata opts := by
        simpa [lastPgdata] using runLoop_lastPgdata dropNodeStep_pgdata hr
      have hne : s'.pgdata ≠ "" := by rw [hp]; exact hl
      rw [(cli_drop_node_getopts_check_ok hok).1 hne]
      exact hp
  · intro e opts s hno hok
    simp only [cli_drop_node_getopts] at hok
    cases hr : runLoop dropNodeStep opts {} with
    | inl c => rw [hr] at hok; cases hok
    | inr s' =>
      rw [hr] at hok
      have hp : s'.pgdata = "" :=
        runLoop_no_pgdata dropNodeStep_pgdata hr hno
      exact (cli_drop_node_getopts_check_ok hok).2 hp

theorem cli_getopt_pgdata_pgdataContract (ext : Ext) :
    PgdataContract (fun e opts => cli_getopt_pgdata e ext opts) := by
  refine ⟨?_, ?_, ?_⟩
  · intro e e' opts hl
    simp only [cli_getopt_pgdata]
    cases hr : runLoop getoptPgdataStep opts {} with
    | inl c => rfl
    | inr s' =>
      have hp : s'.pgdata = lastPgdata opts := by
        simpa [lastPgdata] using runLoop_lastPgdata getoptPgdataStep_pgdata hr
      exact cli_getopt_pgdata_check_env (by rw [hp]; exact hl)
  · intro e opts s hl hok
    simp only [cli_getopt_pgdata] at hok
    cases hr : runLoop getoptPgdataStep opts {} with
    | inl c => rw [hr] at hok; cases hok
    | inr s' =>
      rw [hr] at hok
      have hp : s'.pgdata = lastPgdata opts := by
        simpa [lastPgdata] using runLoop_lastPgdata getoptPgdataStep_pgdata hr
      have hne : s'.pgdata ≠ "" := by rw [hp]; exact hl
      rw [(cli_getopt_pgdata_check_ok hok).1 hne]
      exact hp
  · intro e opts s hno hok
    simp only [cli_getopt_pgdata] at hok
    cases hr : runLoop getoptPgdataStep opts {} with
    | inl c => rw [hr] at hok; cases hok
    | inr s' =>
      rw [hr] at hok
      have hp : s'.pgdata = "" :=
        runLoop_no_pgdata getoptPgdataStep_pgdata hr hno
      exact (cli_getopt_pgdata_check_ok hok).2 hp

theorem cli_show_state_getopts_pgdataContract :
    PgdataContract cli_show_state_getopts := by
  refine ⟨?_, ?_, ?_⟩
  · intro e e' opts hl
    simp only [cli_show_state_getopts]
    cases hr : runLoop showStateStep opts showStateInit with
    | inl c => rfl
    | inr s' =>
      have hp : s'.pgdata = lastPgdata opts := by
        simpa [lastPgdata, showStateInit] using
          runLoop_lastPgdata showStateStep_pgdata hr
      exact cli_show_state_check_env (by rw [hp]; exact hl)
  · intro e opts s hl hok
    simp only [cli_show_state_getopts] at hok
    cases hr : runLoop showStateStep opts showStateInit with
    | inl c => rw [hr] at hok; cases hok
    | inr s' =>
      rw [hr] at hok
      have hp : s'.pgdata = lastPgdata opts := by
        simpa [lastPgdata, showStateInit] using
          runLoop_lastPgdata showStateStep_pgdata hr
      have hne : s'.pgdata ≠ "" := by rw [hp]; exact hl
      rw [(cli_show_state_check_ok hok).1 hne]
      exact hp
  · intro e opts s hno hok
    simp only [cli_show_state_getopts] at hok
    cases hr : runLoop showStateStep opts showStateInit with
    | inl c => rw [hr] at hok; cases hok
    | inr s' =>
      rw [hr] at hok
      have hp : s'.pgdata = "" := by
        simpa [showStateInit] using
          runLoop_no_pgdata showStateStep_pgdata hr hno
      exact (cli_show_state_check_ok hok).2 hp

theorem cli_show_nodes_getopts_pgdataContract :
    PgdataContract cli_show_nodes_getopts := by
  refine ⟨?_, ?_, ?_⟩
  · intro e e' opts hl
    simp only [cli_show_nodes_getopts]
    cases hr : runLoop showNodesStep opts showStateInit with
    | inl c => rfl
    | inr s' =>
      have hp : s'.pgdata = lastPgdata opts := by
        simpa [lastPgdata, showStateInit] using
          runLoop_lastPgdata showNodesStep_pgdata hr
      exact cli_show_state_check_env (by rw [hp]; exact hl)
  · intro e opts s hl hok
    simp only [cli_show_nodes_getopts] at hok
    cases hr : runLoop showNodesStep opts showStateInit with
    | inl c => rw [hr] at hok; cases hok
    | inr s' =>
      rw [hr] at hok
      have hp : s'.pgdata = lastPgdata opts := by
        simpa [lastPgdata, showStateInit] using
          runLoop_lastPgdata showNodesStep_pgdata hr
      have hne : s'.pgdata ≠ "" := by rw [hp]; exact hl
      rw [(cli_show_state_check_ok hok).1 hne]
      exact hp
  · intro e opts s hno hok
    simp only [cli_show_nodes_getopts] at hok
    cases hr : runLoop showNodesStep opts showStateInit with
    | inl c => rw [hr] at hok; cases hok
    | inr s' =>
      rw [hr] at hok
      have hp : s'.pgdata = "" := by
        simpa [showStateInit] using
          runLoop_no_pgdata showNodesStep_pgdata hr hno
      exact (cli_show_state_check_ok hok).2 hp

theorem cli_show_uri_getopts_pgdataContract (ext : Ext) :
    PgdataContract (fun e opts => cli_show_uri_getopts e ext opts) := by
  refine ⟨?_, ?_, ?_⟩
  · intro e e' opts hl
    simp only [cli_show_uri_getopts]
    cases hr : runLoop showUriStep opts {} with
    | inl c => rfl
    | inr s' =>
      have hp : s'.pgdata = lastPgdata opts := by
        simpa [lastPgdata] using runLoop_lastPgdata showUriStep_pgdata hr
      exact cli_show_uri_check_env (by rw [hp]; exact hl)
  · intro e opts s hl hok
    simp only [cli_show_uri_getopts] at hok
    cases hr : runLoop showUriStep opts {} with
    | inl c => rw [hr] at hok; cases hok
    | inr s' =>
      rw [hr] at hok
      have hp : s'.pgdata = lastPgdata opts := by
        simpa [lastPgdata] using runLoop_lastPgdata showUriStep_pgdata hr
      have hne : s'.pgdata ≠ "" := by rw [hp]; exact hl
      rw [(cli_show_uri_check_ok hok).1 hne]
      exact hp
  · intro e opts s hno hok
    simp only [cli_show_uri_getopts] at hok
    cases hr : runLoop showUriStep opts {} with
    | inl c => rw [hr] at hok; cases hok
    | inr s' =>
      rw [hr] at hok
      have hp : s'.pgdata = "" :=
        runLoop_no_pgdata showUriStep_pgdata hr hno
      exact (cli_show_uri_check_ok hok).2 hp

theorem cli_show_file_getopts_pgdataContract (ext : Ext) :
    PgdataContract (fun e opts => cli_show_file_getopts e ext opts) := by
  refine ⟨?_, ?_, ?_⟩
  · intro e e' opts hl
    simp only [cli_show_file_getopts]
    cases hr : runLoop showFileStep opts {} with
    | inl c => rfl
    | inr s' =>
      have hp : s'.pgdata = lastPgdata opts := by
        simpa [lastPgdata] using runLoop_lastPgdata showFileStep_pgdata hr
      exact cli_show_file_check_env (by rw [hp]; exact hl)
  · intro e opts s hl hok
    simp only [cli_show_file_getopts] at hok
    cases hr : runLoop showFileStep opts {} with
    | inl c => rw [hr] at hok; cases hok
    | inr s' =>
      rw [hr] at hok
      have hp : s'.pgdata = lastPgdata opts := by
        simpa [lastPgdata] using runLoop_lastPgdata showFileStep_pgdata hr
      have hne : s'.pgdata ≠ "" := by rw [hp]; exact hl
      rw [(cli_show_file_check_ok hok).1 hne]
      exact hp
  · intro e opts s hno hok
    simp only [cli_show_file_getopts] at hok
    cases hr : runLoop showFileStep opts {} with
    | inl c => rw [hr] at hok; cases hok
    | inr s' =>
      rw [hr] at hok
      have hp : s'.pgdata = "" :=
        runLoop_no_pgdata showFileStep_pgdata hr hno
      exact (cli_show_file_check_ok hok).2 hp

/-! ## Case analysis of whole parsers without `--help`/`--version` -/

theorem cli_create_node_getopts_cases (env : Option String) (ext : Ext)
    (opts : List Opt) (hh : .help ∉ opts) (hv : .version ∉ opts) :
    cli_create_node_getopts env ext opts = .exit EXIT_CODE_BAD_ARGS ∨
    ∃ s', runLoop (createNodeStep ext) opts createNodeInit = .inr s' ∧
      cli_create_node_getopts env ext opts = cli_create_node_check env ext s' := by
  simp only [cli_create_node_getopts]
  cases hr : runLoop (createNodeStep ext) opts createNodeInit with
  | inl c =>
    have hc : c = EXIT_CODE_BAD_ARGS :=
      runLoop_exit_mem hr (fun o ho t c' hst =>
        createNodeStep_exit_code ext o t c'
          (fun he => hh (he ▸ ho)) (fun he => hv (he ▸ ho)) hst)
    subst hc
    exact Or.inl rfl
  | inr s' => exact Or.inr ⟨s', rfl, rfl⟩

theorem cli_create_monitor_getopts_cases (env : Option String) (ext : Ext)
    (opts : List Opt) (hh : .help ∉ opts) (hv : .version ∉ opts) :
    cli_create_monitor_getopts env ext opts = .exit EXIT_CODE_BAD_ARGS ∨
    ∃ s', runLoop createMonitorStep opts (createMonitorInit ext) = .inr s' ∧
      cli_create_monitor_getopts env ext opts =
        cli_create_monitor_check env ext s' := by
  simp only [cli_create_monitor_getopts]
  cases hr : runLoop createMonitorStep opts (createMonitorInit ext) with
  | inl c =>
    have hc : c = EXIT_CODE_BAD_ARGS :=
      runLoop_exit_mem hr (fun o ho t c' hst =>
        createMonitorStep_exit_code o t c'
          (fun he => hh (he ▸ ho)) (fun he => hv (he ▸ ho)) hst)
    subst hc
    exact Or.inl rfl
  | inr s' => exact Or.inr ⟨s', rfl, rfl⟩

theorem cli_drop_node_getopts_cases (env : Option String) (ext : Ext)
    (opts : List Opt) (hh : .help ∉ opts) (hv : .version ∉ opts) :
    cli_drop_node_getopts env ext opts = .exit EXIT_CODE_BAD_ARGS ∨
    ∃ s', runLoop dropNodeStep opts {} = .inr s' ∧
      cli_drop_node_getopts env ext opts =
        cli_drop_node_getopts_check env ext s' := by
  simp only [cli_drop_node_getopts]
  cases hr : runLoop dropNodeStep opts {} with
  | inl c =>
    have hc : c = EXIT_CODE_BAD_ARGS :=
      runLoop_exit_mem hr (fun o ho t c' hst =>
        dropNodeStep_exit_code o t c'
          (fun he => hh (he ▸ ho)) (fun he => hv (he ▸ ho)) hst)
    subst hc
    exact Or.inl rfl
  | inr s' => exact Or.inr ⟨s', rfl, rfl⟩

theorem cli_getopt_pgdata_cases (env : Option String) (ext : Ext)
    (opts : List Opt) (hh : .help ∉ opts) :
    (∃ c, cli_getopt_pgdata env ext opts = .exit c) ∨
    ∃ s', runLoop getoptPgdataStep opts {} = .inr s' ∧
      cli_getopt_pgdata env ext opts = cli_getopt_pgdata_check env ext s' := by
  simp only [cli_getopt_pgdata]
  cases hr : runLoop getoptPgdataStep opts {} with
  | inl c => exact Or.inl ⟨c, rfl⟩
  | inr s' => exact Or.inr ⟨s', rfl, rfl⟩

/-! ## Tracking the monitor options along the create-node loop -/

theorem updMonitorUri_ne {o : Opt} {a : String}
    (ho : ∀ v, o = .monitorUri v → v ≠ "") (ha : a ≠ "") :
    updMonitorUri o a ≠ "" := by
  cases o <;> simp [updMonitorUri] <;>
    first
      | exact ha
      | exact ho _ rfl

theorem updMonitorUri_other {o : Opt} {a : String}
    (ho : ∀ v, o ≠ .monitorUri v) : updMonitorUri o a = a := by
  cases o <;> simp [updMonitorUri]
  exact absurd rfl (ho _)

theorem updMonitorDisabled_true {o : Opt} {a : Bool} (ha : a = true) :
    updMonitorDisabled o a = true := by
  cases o <;> simp [updMonitorDisabled, ha]

theorem updMonitorDisabled_other {o : Opt} {a : Bool}
    (ho : o ≠ .disableMonitor) : updMonitorDisabled o a = a := by
  cases o <;> simp [updMonitorDisabled]
  exact absurd rfl ho

theorem runLoop_monitor_set {ext : Ext} {opts : List Opt} {s s' : PState}
    {u : String}
    (h : runLoop (createNodeStep ext) opts s = .inr s')
    (hm : .monitorUri u ∈ opts)
    (hall : ∀ v, .monitorUri v ∈ opts → v ≠ "") :
    s'.monitor_pguri ≠ "" := by
  refine runLoop_establish (P := fun t => t.monitor_pguri ≠ "") h hm
    (fun t t' ht => ?_) (fun o ho t t' ht hp => ?_)
  · show t'.monitor_pguri ≠ ""
    rw [createNodeStep_monitorUri ext _ t t' ht]
    simpa [updMonitorUri] using hall u hm
  · show t'.monitor_pguri ≠ ""
    rw [createNodeStep_monitorUri ext o t t' ht]
    exact updMonitorUri_ne (fun v he => hall v (he ▸ ho)) hp

theorem runLoop_monitor_none {ext : Ext} {opts : List Opt} {s s' : PState}
    (h : runLoop (createNodeStep ext) opts s = .inr s')
    (hno : ∀ v, .monitorUri v ∉ opts) :
    s'.monitor_pguri = s.monitor_pguri :=
  runLoop_preserve (P := fun t => t.monitor_pguri = s.monitor_pguri) h
    (fun o ho t t' ht hp => by
      show t'.monitor_pguri = s.monitor_pguri
      rw [createNodeStep_monitorUri ext o t t' ht,
          updMonitorUri_other (fun v he => (he ▸ hno v) ho)]
      exact hp)
    rfl

theorem runLoop_disabled_set {ext : Ext} {opts : List Opt} {s s' : PState}
    (h : runLoop (createNodeStep ext) opts s = .inr s')
    (hm : .disableMonitor ∈ opts) : s'.monitorDisabled = true :=
  runLoop_establish (P := fun t => t.monitorDisabled = true) h hm
    (fun t t' ht => by
      show t'.monitorDisabled = true
      rw [createNodeStep_monitorDisabled ext _ t t' ht]
      simp [updMonitorDisabled])
    (fun o ho t t' ht hp => by
      show t'.monitorDisabled = true
      rw [createNodeStep_monitorDisabled ext o t t' ht]
      exact updMonitorDisabled_true hp)

theorem runLoop_disabled_none {ext : Ext} {opts : List Opt} {s s' : PState}
    (h : runLoop (createNodeStep ext) opts s = .inr s')
    (hno : .disableMonitor ∉ opts) :
    s'.monitorDisabled = s.monitorDisabled :=
  runLoop_preserve (P := fun t => t.monitorDisabled = s.monitorDisabled) h
    (fun o ho t t' ht hp => by
      show t'.monitorDisabled = s.monitorDisabled
      rw [createNodeStep_monitorDisabled ext o t t' ht,
          updMonitorDisabled_other (fun he => (he ▸ hno) ho)]
      exact hp)
    rfl

/-! ## Establishing the authentication method along a loop, generically -/

theorem runLoop_auth_skip {step : Opt → PState → StepResult}
    (F : AuthStepFacts step) {opts : List Opt} {s s' : PState}
    (h : runLoop step opts s = .inr s') (hs : .skipPgHba ∈ opts)
    (hno : ∀ v, .auth v ∉ opts) :
    s'.authMethod = SKIP_HBA_AUTH_METHOD := by
  refine runLoop_establish (P := fun t => t.authMethod = SKIP_HBA_AUTH_METHOD)
    h hs (fun t t' ht => (F.skipSet t t' ht).1) (fun o ho t t' ht hp => ?_)
  by_cases hao : isAuthOpt o = true
  · cases o <;> simp [isAuthOpt] at hao
    · exact absurd ho (hno _)
    · exact (F.skipSet t t' ht).1
  · have hao' : isAuthOpt o = false := by
      cases hx : isAuthOpt o
      · rfl
      · exact absurd hx hao
    exact (F.other o hao' t t' ht).trans hp

theorem runLoop_never_exit {step : Opt → PState → StepResult}
    {opts : List Opt} {s : PState} {c : Nat}
    (h : runLoop step opts s = .inl c)
    (hc : ∀ o ∈ opts, ∀ t c', step o t ≠ .exit c') : False := by
  have h0 := runLoop_exit_mem (n := 0) h
    (fun o ho t c' hst => absurd hst (hc o ho t c'))
  have h1 := runLoop_exit_mem (n := 1) h
    (fun o ho t c' hst => absurd hst (hc o ho t c'))
  omega

theorem getoptPgdataStep_no_exit :
    ∀ o t c, o ≠ .help → getoptPgdataStep o t ≠ .exit c := by
  intro o t c hh h
  cases o <;> simp only [getoptPgdataStep] at h <;> (try cases h) <;> simp_all

theorem runLoop_printVersion_false {opts : List Opt} {s s' : PState}
    (h : runLoop getoptPgdataStep opts s = .inr s')
    (hv : .version ∉ opts) : s'.printVersion = s.printVersion :=
  runLoop_preserve (P := fun t => t.printVersion = s.printVersion) h
    (fun o ho t t' ht hp => by
      show t'.printVersion = s.printVersion
      rw [getoptPgdataStep_printVersion o t t' ht]
      cases o <;>
        first
          | exact absurd ho hv
          | simpa using hp)
    rfl

theorem updDestroy_true {o : Opt} {a : Bool} (ha : a = true) :
    updDestroy o a = true := by
  cases o <;> simp [updDestroy, ha]

theorem runLoop_destroy_set {opts : List Opt} {s s' : PState}
    (h : runLoop dropNodeStep opts s = .inr s') (hm : .destroy ∈ opts) :
    s'.dropAndDestroy = true :=
  runLoop_establish (P := fun t => t.dropAndDestroy = true) h hm
    (fun t t' ht => by
      show t'.dropAndDestroy = true
      rw [dropNodeStep_destroy _ t t' ht]
      simp [updDestroy])
    (fun o ho t t' ht hp => by
      show t'.dropAndDestroy = true
      rw [dropNodeStep_destroy o t t' ht]
      exact updDestroy_true hp)

theorem runLoop_lastNodename {opts : List Opt} {s s' : PState}
    (h : runLoop dropNodeStep opts s = .inr s') :
    s'.nodename = opts.foldl (fun a o => updNodename o a) s.nodename :=
  runLoop_track h (fun o _ t t' ht => dropNodeStep_nodename o t t' ht)

theorem runLoop_lastPgportDrop {opts : List Opt} {s s' : PState}
    (h : runLoop dropNodeStep opts s = .inr s') :
    s'.pgport = opts.foldl (fun a o => updPgport o a) s.pgport :=
  runLoop_track h (fun o _ t t' ht => dropNodeStep_pgport o t t' ht)

theorem cli_drop_node_getopts_check_conflict {e : Option String} {ext : Ext}
    {s : PState} (hd : s.dropAndDestroy = true)
    (hor : s.nodename ≠ "" ∨ s.pgport ≠ 0) :
    cli_drop_node_getopts_check e ext s = .exit EXIT_CODE_BAD_ARGS := by
  simp only [cli_drop_node_getopts_check]
  rw [if_pos ⟨hd, hor⟩]

theorem cli_drop_node_getopts_check_noconfig {e : Option String} {ext : Ext}
    {s : PState} (hc : ∀ p, ext.configFileExists p = false) :
    cli_drop_node_getopts_check e ext s = .exit EXIT_CODE_BAD_ARGS := by
  simp only [cli_drop_node_getopts_check]
  split
  · rfl
  · exact prepare_keeper_options_noconfig hc

theorem cli_getopt_pgdata_check_noconfig {e : Option String} {ext : Ext}
    {s : PState} (hc : ∀ p, ext.configFileExists p = false)
    (hv : s.printVersion = false) :
    cli_getopt_pgdata_check e ext s = .exit EXIT_CODE_BAD_ARGS := by
  simp only [cli_getopt_pgdata_check]
  split
  · rfl
  · rw [if_neg (by simp [hv])]
    exact prepare_keeper_options_noconfig hc

theorem runLoop_auth_empty {step : Opt → PState → StepResult}
    (F : AuthStepFacts step) {opts : List Opt} {s s' : PState}
    (h : runLoop step opts s = .inr s') (hnoa : ∀ v, .auth v ∉ opts)
    (hnos : .skipPgHba ∉ opts) :
    s'.authMethod = s.authMethod := by
  refine runLoop_preserve (P := fun t => t.authMethod = s.authMethod) h
    (fun o ho t t' ht hp => ?_) rfl
  by_cases hao : isAuthOpt o = true
  · cases o <;> simp [isAuthOpt] at hao
    · exact absurd ho (hnoa _)
    · exact absurd ho hnos
  · have hao' : isAuthOpt o = false := by
      cases hx : isAuthOpt o
      · rfl
      · exact absurd hx hao
    exact (F.other o hao' t t' ht).trans hp

/-! ## The claims -/

/-- C9: Every CLI option parser embedded from these files exits with the
quit-from-help code 127 as soon as it sees `-h`/`--help`, printing the usage
help; `keeper_cli_print_version` always exits with code 0; and the
`pg_autoctl version` command exits 0 on every command line without
`--help`, even when `cli_print_version_getopts` encounters unknown options
(parse errors are ignored on the version path). -/
theorem claim_C9 :
    (∀ env ext rest,
      cli_create_node_getopts env ext (.help :: rest) = .exit EXIT_CODE_QUIT) ∧
    (∀ env ext rest,
      cli_create_monitor_getopts env ext (.help :: rest) = .exit EXIT_CODE_QUIT) ∧
    (∀ env ext rest,
      cli_drop_node_getopts env ext (.help :: rest) = .exit EXIT_CODE_QUIT) ∧
    (∀ env ext rest,
      cli_getopt_pgdata env ext (.help :: rest) = .exit EXIT_CODE_QUIT) ∧
    (∀ env rest,
      cli_show_state_getopts env (.help :: rest) = .exit EXIT_CODE_QUIT) ∧
    (∀ env rest,
      cli_show_nodes_getopts env (.help :: rest) = .exit EXIT_CODE_QUIT) ∧
    (∀ env ext rest,
      cli_show_uri_getopts env ext (.help :: rest) = .exit EXIT_CODE_QUIT) ∧
    (∀ env ext rest,
      cli_show_file_getopts env ext (.help :: rest) = .exit EXIT_CODE_QUIT) ∧
    (∀ rest, versionCommand (.help :: rest) = EXIT_CODE_QUIT) ∧
    keeper_cli_print_version = 0 ∧
    (∀ opts, .help ∉ opts → versionCommand opts = 0) := by
  refine ⟨fun env ext rest => rfl, fun env ext rest => rfl,
    fun env ext rest => rfl, fun env ext rest => rfl, fun env rest => rfl,
    fun env rest => rfl, fun env ext rest => rfl, fun env ext rest => rfl,
    fun rest => rfl, rfl, ?_⟩
  intro opts hh
  simp only [versionCommand]
  cases hr : runLoop printVersionStep opts {} with
  | inl c =>
    exact (runLoop_never_exit hr
      (fun o ho t c' => printVersionStep_cont o t
        (fun he => hh (he ▸ ho)))).elim
  | inr s => rfl

/-- Witness for C9 at concrete inputs: `--help` quits the create-postgres
parser with 127, and `pg_autoctl version` with an unknown option and
`--json` still exits 0. -/
theorem claim_C9_witness :
    cli_create_node_getopts none extDefault [.help] = .exit EXIT_CODE_QUIT ∧
    versionCommand [.unknown, .json] = 0 :=
  ⟨claim_C9.1 none extDefault [],
   claim_C9.2.2.2.2.2.2.2.2.2.2 [.unknown, .json] (by decide)⟩

/-- C10: For `pg_autoctl create postgres` and `pg_autoctl create monitor`,
an explicit SSL choice is mandatory: a command line (without `--help` or
`--version`) that contains no SSL-choosing flag — `--ssl-mode` alone does
not choose the user-provided mode — leaves the choice at `SSL_CLI_UNKNOWN`
and option parsing exits with the bad-args code 1. -/
theorem claim_C10 :
    (∀ env ext opts, .help ∉ opts → .version ∉ opts →
      (∀ o ∈ opts, isSSLChoiceOpt o = false) →
      cli_create_node_getopts env ext opts = .exit EXIT_CODE_BAD_ARGS) ∧
    (∀ env ext opts, .help ∉ opts → .version ∉ opts →
      (∀ o ∈ opts, isSSLChoiceOpt o = false) →
      cli_create_monitor_getopts env ext opts = .exit EXIT_CODE_BAD_ARGS) := by
  constructor
  · intro env ext opts hh hv hno
    rcases cli_create_node_getopts_cases env ext opts hh hv with h | ⟨s', hr, he⟩
    · exact h
    · rw [he]
      have hun : s'.sslCmdLine = .unknown := by
        have := runLoop_ssl_unchanged (createNodeStep_sslFacts ext) hr hno
        simpa [createNodeInit] using this
      exact cli_create_node_check_sslUnknown hun
  · intro env ext opts hh hv hno
    rcases cli_create_monitor_getopts_cases env ext opts hh hv with h | ⟨s', hr, he⟩
    · exact h
    · rw [he]
      have hun : s'.sslCmdLine = .unknown := by
        have := runLoop_ssl_unchanged createMonitorStep_sslFacts hr hno
        simpa [createMonitorInit] using this
      exact cli_create_monitor_check_sslUnknown hun

/-- Witness for C10: a create-postgres command line with only `--ssl-mode`
for SSL, and a create-monitor command line with no SSL flag at all, both
exit with the bad-args code 1. -/
theorem claim_C10_witness :
    cli_create_node_getopts none extDefault
      [.pgdata "/data", .auth "trust", .disableMonitor, .sslMode "require"] =
      .exit EXIT_CODE_BAD_ARGS ∧
    cli_create_monitor_getopts none extDefault [.pgdata "/data", .skipPgHba] =
      .exit EXIT_CODE_BAD_ARGS :=
  ⟨claim_C10.1 none extDefault _ (by decide) (by decide) (by decide),
   claim_C10.2 none extDefault _ (by decide) (by decide) (by decide)⟩

/-- C2: `pg_autoctl drop node` on a keeper node (`cli_drop_local_node`,
reached with a working pid file and node removal): without `--destroy` it
stops Postgres and never removes the configuration file or the PGDATA
directory; with `--destroy` it removes PGDATA and then the configuration
file, but only after `pg_ctl stop` succeeds — when stopping fails the
process exits with the Postgres-control code 16 and PGDATA is not
removed. -/
theorem claim_C2 (env : DropEnv)
    (h1 : env.pidFileExists = true → env.pidReadOk = true →
      env.killOk = true)
    (h2 : env.stateFileExists = true → env.keeperRemoveOk = true) :
    (.removePgdata ∉ (cli_drop_local_node env false).2 ∧
     .removeConfig ∉ (cli_drop_local_node env false).2) ∧
    (env.pgCtlStopOk = true →
      cli_drop_local_node env false = (none, [.stopPostgres])) ∧
    (env.pgCtlStopOk = false →
      cli_drop_local_node env false = (some EXIT_CODE_PGCTL, [])) ∧
    (env.pgCtlStopOk = false →
      cli_drop_local_node env true = (some EXIT_CODE_PGCTL, [])) ∧
    (env.pgCtlStopOk = true → env.pgdataDirExists = true →
      env.rmtreeOk = true → env.unlinkConfigOk = true →
      cli_drop_local_node env true =
        (none, [.stopPostgres, .removePgdata, .removeConfig])) := by
  have hC1 : ¬(env.pidFileExists = true ∧ env.pidReadOk = true ∧
      env.killOk = false) := by
    rintro ⟨hpf, hpr, hk⟩
    rw [h1 hpf hpr] at hk
    cases hk
  have hC2 : ¬(env.stateFileExists = true ∧ env.keeperRemoveOk = false) := by
    rintro ⟨hst, hkr⟩
    rw [h2 hst] at hkr
    cases hkr
  refine ⟨?_, ?_, ?_, ?_, ?_⟩
  · cases hstop : env.pgCtlStopOk <;>
      simp [cli_drop_local_node, hC1, hC2, hstop]
  · intro hstop
    simp [cli_drop_local_node, hC1, hC2, hstop]
  · intro hstop
    simp [cli_drop_local_node, hC1, hC2, hstop]
  · intro hstop
    simp [cli_drop_local_node, stop_postgres_and_remove_pgdata_and_config,
          hC1, hC2, hstop]
  · intro hstop hdir hrm hul
    simp [cli_drop_local_node, stop_postgres_and_remove_pgdata_and_config,
          hC1, hC2, hstop, hdir, hrm, hul]

/-- Witness for C2 in a healthy environment: `drop node --destroy` stops
Postgres, removes PGDATA, then removes the configuration file; without
`--destroy` only Postgres is stopped. -/
theorem claim_C2_witness :
    cli_drop_local_node {} true =
      (none, [.stopPostgres, .removePgdata, .removeConfig]) ∧
    cli_drop_local_node {} false = (none, [.stopPostgres]) := by
  have h := claim_C2 {} (by intro _ _; rfl) (by intro _; rfl)
  exact ⟨h.2.2.2.2 rfl rfl rfl rfl, h.2.1 rfl⟩

/-- C1, counterexample: the claim as stated is false. `--ssl-mode` does not
take part in the SSL-compatibility check (`ssl_flag == SSL_MODE_FLAG` skips
`cli_getopt_accept_ssl_options`), so a `pg_autoctl create postgres` command
line combining `--ssl-self-signed` with `--ssl-mode require` is not
rejected: option parsing succeeds instead of exiting with the bad-args
code 1. -/
theorem claim_C1_counterexample :
    cli_create_node_getopts none extDefault
      [.pgdata "/data", .auth "trust", .disableMonitor, .sslSelfSigned,
       .sslMode "require"] ≠ .exit EXIT_CODE_BAD_ARGS ∧
    (∃ s, cli_create_node_getopts none extDefault
      [.pgdata "/data", .auth "trust", .disableMonitor, .sslSelfSigned,
       .sslMode "require"] = .ok s ∧ s.ssl.createSelfSignedCert = true ∧
       s.ssl.sslModeStr = "require") := by
  constructor
  · intro hcontra
    have h : cli_create_node_getopts none extDefault
        [.pgdata "/data", .auth "trust", .disableMonitor, .sslSelfSigned,
         .sslMode "require"] = .ok _ := rfl
    rw [h] at hcontra
    cases hcontra
  · exact ⟨_, rfl, rfl, rfl⟩

/-- C1, amended: the SSL modes are mutually exclusive with respect to the
mode-choosing flags only — `--ssl-self-signed`, `--no-ssl`, and the four
certificate-file flags `--ssl-ca-file`, `--ssl-crl-file`, `--server-cert`,
`--server-key` (but not `--ssl-mode`). For both `pg_autoctl create
postgres` and `pg_autoctl create monitor`, a command line (without
`--help`/`--version`) carrying flags of two different modes exits with the
bad-args code 1; `cli_getopt_accept_ssl_options` accepts the first choice
and repeats of the same choice; and command lines using flags of a single
mode (with `--ssl-mode` allowed alongside any of them) are accepted. -/
theorem claim_C1_theorem :
    (∀ env ext opts o₁ o₂ k₁ k₂, .help ∉ opts → .version ∉ opts →
      o₁ ∈ opts → o₂ ∈ opts → sslClassOf o₁ = some k₁ →
      sslClassOf o₂ = some k₂ → k₁ ≠ k₂ →
      cli_create_node_getopts env ext opts = .exit EXIT_CODE_BAD_ARGS) ∧
    (∀ env ext opts o₁ o₂ k₁ k₂, .help ∉ opts → .version ∉ opts →
      o₁ ∈ opts → o₂ ∈ opts → sslClassOf o₁ = some k₁ →
      sslClassOf o₂ = some k₂ → k₁ ≠ k₂ →
      cli_create_monitor_getopts env ext opts = .exit EXIT_CODE_BAD_ARGS) ∧
    (∀ k, cli_getopt_accept_ssl_options k .unknown = true) ∧
    (∀ k, cli_getopt_accept_ssl_options k k = true) ∧
    (∃ s, cli_create_node_getopts none extDefault
      [.pgdata "/data", .auth "trust", .disableMonitor, .sslSelfSigned] =
        .ok s) ∧
    (∃ s, cli_create_node_getopts none extDefault
      [.pgdata "/data", .auth "trust", .disableMonitor, .noSsl] = .ok s) ∧
    (∃ s, cli_create_node_getopts none extDefault
      [.pgdata "/data", .auth "trust", .disableMonitor, .sslCAFile "/ca",
       .sslCRLFile "/crl", .serverCert "/crt", .serverKey "/key",
       .sslMode "require"] = .ok s) ∧
    (∃ s, cli_create_monitor_getopts none extDefault
      [.pgdata "/data", .skipPgHba, .sslSelfSigned] = .ok s) := by
  refine ⟨?_, ?_, ?_, ?_, ⟨_, rfl⟩, ⟨_, rfl⟩, ⟨_, rfl⟩, ⟨_, rfl⟩⟩
  · intro env ext opts o₁ o₂ k₁ k₂ hh hv h₁ h₂ hk₁ hk₂ hne
    rcases cli_create_node_getopts_cases env ext opts hh hv with h | ⟨s', hr, he⟩
    · exact h
    · rw [he]
      exact cli_create_node_check_errors
        (runLoop_ssl_mixed (createNodeStep_sslFacts ext) hr h₁ h₂ hk₁ hk₂ hne)
  · intro env ext opts o₁ o₂ k₁ k₂ hh hv h₁ h₂ hk₁ hk₂ hne
    rcases cli_create_monitor_getopts_cases env ext opts hh hv with h | ⟨s', hr, he⟩
    · exact h
    · rw [he]
      exact cli_create_monitor_check_errors
        (runLoop_ssl_mixed createMonitorStep_sslFacts hr h₁ h₂ hk₁ hk₂ hne)
  · intro k
    cases k <;> rfl
  · intro k
    cases k <;> rfl

/-- Witness for C1's amended theorem: `--ssl-self-signed` with
`--ssl-ca-file` is rejected with the bad-args code, and `--ssl-self-signed`
with `--no-ssl` likewise, on both create parsers. -/
theorem claim_C1_witness :
    cli_create_node_getopts none extDefault
      [.pgdata "/data", .auth "trust", .disableMonitor, .sslSelfSigned,
       .sslCAFile "/ca"] = .exit EXIT_CODE_BAD_ARGS ∧
    cli_create_monitor_getopts none extDefault
      [.pgdata "/data", .skipPgHba, .sslSelfSigned, .noSsl] =
      .exit EXIT_CODE_BAD_ARGS :=
  ⟨claim_C1_theorem.1 none extDefault _ (.sslSelfSigned) (.sslCAFile "/ca")
      .selfSigned .userProvided (by decide) (by decide) (by decide)
      (by decide) rfl rfl (by decide),
   claim_C1_theorem.2.1 none extDefault _ (.sslSelfSigned) (.noSsl)
      .selfSigned .noSSL (by decide) (by decide) (by decide) (by decide)
      rfl rfl (by decide)⟩

/-- C3: `--candidate-priority` on `pg_autoctl create postgres` is meant to
accept only integers 0..100 and exit with the bad-args code 1 otherwise (as
the code's own error message says). The code evaluates the argument with
`strtol(optarg, NULL, 10)` and tests `errno == EINVAL`, but `strtol` does
not set `EINVAL` when no conversion can be performed (it returns 0 and, on
glibc, leaves `errno` alone), so a non-numeric argument such as "banana" is
accepted and stored as candidate priority 0 instead of being rejected.
In-range integers are stored unchanged and out-of-range ones are
rejected. -/
theorem claim_C3_theorem :
    (∃ s, cli_create_node_getopts none extDefault
      [.pgdata "/data", .auth "trust", .disableMonitor, .sslSelfSigned,
       .candidatePriority "banana"] = .ok s ∧ s.candidatePriority = 0) ∧
    strtol10 "banana" = 0 ∧
    cli_create_node_getopts none extDefault
      [.pgdata "/data", .auth "trust", .disableMonitor, .sslSelfSigned,
       .candidatePriority "101"] = .exit EXIT_CODE_BAD_ARGS ∧
    (∃ s, cli_create_node_getopts none extDefault
      [.pgdata "/data", .auth "trust", .disableMonitor, .sslSelfSigned,
       .candidatePriority "75"] = .ok s ∧ s.candidatePriority = 75) :=
  ⟨⟨_, rfl, rfl⟩, rfl, rfl, ⟨_, rfl, rfl⟩⟩

/-- C4: in `cli_create_node_getopts`, `--monitor` (with a non-empty URI)
and `--disable-monitor` are mutually exclusive and one of them is
mandatory: giving both, or neither, exits with the bad-args code 1 (absent
`--help`/`--version`); and whenever parsing succeeds with
`--disable-monitor` on the command line, the configuration's monitor URI
is the sentinel `PG_AUTOCTL_MONITOR_DISABLED`, so the choice can be
restored from the configuration file. -/
theorem claim_C4 :
    (∀ env ext opts u, .help ∉ opts → .version ∉ opts →
      .monitorUri u ∈ opts → (∀ v, .monitorUri v ∈ opts → v ≠ "") →
      .disableMonitor ∈ opts →
      cli_create_node_getopts env ext opts = .exit EXIT_CODE_BAD_ARGS) ∧
    (∀ env ext opts, .help ∉ opts → .version ∉ opts →
      (∀ v, .monitorUri v ∉ opts) → .disableMonitor ∉ opts →
      cli_create_node_getopts env ext opts = .exit EXIT_CODE_BAD_ARGS) ∧
    (∀ env ext opts s, .disableMonitor ∈ opts →
      cli_create_node_getopts env ext opts = .ok s →
      s.monitor_pguri = PG_AUTOCTL_MONITOR_DISABLED) ∧
    (∃ s, cli_create_node_getopts none extDefault
      [.pgdata "/data", .auth "trust", .sslSelfSigned, .disableMonitor] =
        .ok s ∧ s.monitor_pguri = PG_AUTOCTL_MONITOR_DISABLED) := by
  refine ⟨?_, ?_, ?_, ⟨_, rfl, rfl⟩⟩
  · intro env ext opts u hh hv hm hall hd
    rcases cli_create_node_getopts_cases env ext opts hh hv with h | ⟨s', hr, he⟩
    · exact h
    · rw [he]
      exact cli_create_node_check_monitor_both
        (runLoop_monitor_set hr hm hall) (runLoop_disabled_set hr hd)
  · intro env ext opts hh hv hno hnd
    rcases cli_create_node_getopts_cases env ext opts hh hv with h | ⟨s', hr, he⟩
    · exact h
    · rw [he]
      refine cli_create_node_check_monitor_neither ?_ ?_
      · have := runLoop_monitor_none hr hno
        simpa [createNodeInit] using this
      · have := runLoop_disabled_none hr hnd
        simpa [createNodeInit] using this
  · intro env ext opts s hd hok
    simp only [cli_create_node_getopts] at hok
    cases hr : runLoop (createNodeStep ext) opts createNodeInit with
    | inl c => rw [hr] at hok; cases hok
    | inr s' =>
      rw [hr] at hok
      exact (cli_create_node_check_ok hok).1 (runLoop_disabled_set hr hd)

/-- Witness for C4: `--monitor` plus `--disable-monitor` exits 1, and
neither exits 1, on concrete command lines. -/
theorem claim_C4_witness :
    cli_create_node_getopts none extDefault
      [.pgdata "/data", .auth "trust", .sslSelfSigned,
       .monitorUri "postgresql://m", .disableMonitor] =
      .exit EXIT_CODE_BAD_ARGS ∧
    cli_create_node_getopts none extDefault
      [.pgdata "/data", .auth "trust", .sslSelfSigned] =
      .exit EXIT_CODE_BAD_ARGS :=
  ⟨claim_C4.1 none extDefault _ "postgresql://m" (by decide) (by decide)
      (by decide) (by intro v hv; simp at hv; subst hv; decide) (by decide),
   claim_C4.2.1 none extDefault _ (by decide) (by decide)
      (by intro v hv; simp at hv) (by decide)⟩

/-- C5: `pg_autoctl drop node` accepts exactly the two spec forms.
Combining `--destroy` with a (finally non-empty) `--nodename` or a
non-zero `--pgport` exits with the bad-args code 1; on a node whose
configuration file probes as a monitor, both `--nodename` and `--pgport`
are required, else exit 1, and with both the entry is removed on the
monitor; on a keeper node, supplying `--nodename` or `--pgport` exits 1 —
only the local node can be dropped there. -/
theorem claim_C5 :
    (∀ env ext opts, .help ∉ opts → .version ∉ opts → .destroy ∈ opts →
      (lastNodename opts ≠ "" ∨ lastPgport opts ≠ 0) →
      cli_drop_node_getopts env ext opts = .exit EXIT_CODE_BAD_ARGS) ∧
    (∀ ext s, ext.configFileExists s.pgdata = true →
      (s.nodename = "" ∨ s.pgport = 0) →
      cli_drop_node ext .monitor s = .exit EXIT_CODE_BAD_ARGS) ∧
    (∀ ext s, ext.configFileExists s.pgdata = true →
      (s.nodename ≠ "" ∨ s.pgport ≠ 0) →
      cli_drop_node ext .keeper s = .exit EXIT_CODE_BAD_ARGS) ∧
    (∀ ext s, ext.configFileExists s.pgdata = true → s.nodename ≠ "" →
      s.pgport ≠ 0 → ext.monitorConfigInitOk = true →
      ext.monitorRemoveOk = true →
      cli_drop_node ext .monitor s = .droppedFromMonitor s.nodename s.pgport) ∧
    (∀ ext s, ext.configFileExists s.pgdata = true → s.nodename = "" →
      s.pgport = 0 → ext.readKeeperConfigOk = true →
      cli_drop_node ext .keeper s = .droppedLocal s.dropAndDestroy) := by
  refine ⟨?_, ?_, ?_, ?_, ?_⟩
  · intro env ext opts hh hv hdm hor
    rcases cli_drop_node_getopts_cases env ext opts hh hv with h | ⟨s', hr, he⟩
    · exact h
    · rw [he]
      refine cli_drop_node_getopts_check_conflict (runLoop_destroy_set hr hdm) ?_
      have hn : s'.nodename = lastNodename opts := by
        simpa [lastNodename] using runLoop_lastNodename hr
      have hp : s'.pgport = lastPgport opts := by
        simpa [lastPgport] using runLoop_lastPgportDrop hr
      rw [hn, hp]
      exact hor
  · intro ext s hcf hor
    simp [cli_drop_node, hcf, hor]
  · intro ext s hcf hor
    simp only [cli_drop_node, hcf]
    rw [if_neg (by simp), if_pos hor]
  · intro ext s hcf hn hp hmi hmr
    simp only [cli_drop_node, cli_drop_node_from_monitor, hcf]
    rw [if_neg (by simp), if_neg (by simp [hn, hp]),
        if_neg (by simp [hmi]), if_neg (by simp [hmr])]
  · intro ext s hcf hn hp hrk
    simp only [cli_drop_node, hcf]
    rw [if_neg (by simp), if_neg (by simp [hn, hp]),
        if_neg (by simp [hrk])]

/-- Witness for C5: `--destroy --nodename h` exits 1; on a monitor-role
node with neither option the command exits 1; with both it removes the
named node on the monitor; on a keeper-role node with no options the local
node is dropped. -/
theorem claim_C5_witness :
    cli_drop_node_getopts none extDefault
      [.pgdata "/data", .destroy, .nodename "h"] = .exit EXIT_CODE_BAD_ARGS ∧
    cli_drop_node extDefault .monitor { pgdata := "/data" } =
      .exit EXIT_CODE_BAD_ARGS ∧
    cli_drop_node extDefault .monitor
      { pgdata := "/data", nodename := "h", pgport := 5432 } =
      .droppedFromMonitor "h" 5432 ∧
    cli_drop_node extDefault .keeper { pgdata := "/data", dropAndDestroy := true } =
      .droppedLocal true :=
  ⟨claim_C5.1 none extDefault _ (by decide) (by decide) (by decide)
      (Or.inl (by decide)),
   claim_C5.2.1 extDefault _ rfl (Or.inl rfl),
   claim_C5.2.2.2.1 extDefault _ rfl (by decide) (by decide) rfl rfl,
   claim_C5.2.2.2.2 extDefault _ rfl rfl rfl rfl⟩

/-- C6, counterexample: the claim as stated is false. When the
configuration file derived from PGDATA does not exist, the commands going
through `prepare_keeper_options` (among them `pg_autoctl drop node` and
`drop monitor`) exit with the bad-args code 1, not with the bad-config
code 12: `prepare_keeper_options` calls `exit(EXIT_CODE_BAD_ARGS)` on a
missing configuration file. -/
theorem claim_C6_counterexample :
    cli_drop_node_getopts (some "/data")
      { configFileExists := fun _ => false } [] = .exit EXIT_CODE_BAD_ARGS ∧
    cli_drop_node_getopts (some "/data")
      { configFileExists := fun _ => false } [] ≠ .exit EXIT_CODE_BAD_CONFIG := by
  have h : cli_drop_node_getopts (some "/data")
      { configFileExists := fun _ => false } [] = .exit EXIT_CODE_BAD_ARGS := rfl
  refine ⟨h, ?_⟩
  rw [h]
  intro hc
  cases hc

/-- C6, amended: running any command whose option parsing goes through
`prepare_keeper_options` (`drop node`, `drop monitor` via
`cli_drop_node_getopts`, and the terminal commands via `cli_getopt_pgdata`)
when the configuration file derived from PGDATA does not exist makes the
process exit with the bad-args code 1 (`prepare_keeper_options` treats it
as a bad-arguments error, suspecting a typo in PGDATA). -/
theorem claim_C6_theorem :
    (∀ env ext s, (∀ p, ext.configFileExists p = false) →
      prepare_keeper_options env ext s = .exit EXIT_CODE_BAD_ARGS) ∧
    (∀ env ext opts, .help ∉ opts → .version ∉ opts →
      (∀ p, ext.configFileExists p = false) →
      cli_drop_node_getopts env ext opts = .exit EXIT_CODE_BAD_ARGS) ∧
    (∀ env ext opts, .help ∉ opts → .version ∉ opts →
      (∀ p, ext.configFileExists p = false) →
      cli_getopt_pgdata env ext opts = .exit EXIT_CODE_BAD_ARGS) := by
  refine ⟨?_, ?_, ?_⟩
  · intro env ext s hc
    exact prepare_keeper_options_noconfig hc
  · intro env ext opts hh hv hc
    rcases cli_drop_node_getopts_cases env ext opts hh hv with h | ⟨s', hr, he⟩
    · exact h
    · rw [he]
      exact cli_drop_node_getopts_check_noconfig hc
  · intro env ext opts hh hv hc
    simp only [cli_getopt_pgdata]
    cases hr : runLoop getoptPgdataStep opts {} with
    | inl c =>
      exact (runLoop_never_exit hr
        (fun o ho t c' => getoptPgdataStep_no_exit o t c'
          (fun he => hh (he ▸ ho)))).elim
    | inr s' =>
      exact cli_getopt_pgdata_check_noconfig hc
        (runLoop_printVersion_false hr hv)

/-- Witness for C6's amended theorem: with no configuration file anywhere,
`drop node --pgdata /data` and a terminal command both exit with the
bad-args code 1. -/
theorem claim_C6_witness :
    cli_drop_node_getopts none { configFileExists := fun _ => false }
      [.pgdata "/data"] = .exit EXIT_CODE_BAD_ARGS ∧
    cli_getopt_pgdata none { configFileExists := fun _ => false }
      [.pgdata "/data", .json] = .exit EXIT_CODE_BAD_ARGS :=
  ⟨claim_C6_theorem.2.1 none { configFileExists := fun _ => false } _
      (by decide) (by decide) (fun p => rfl),
   claim_C6_theorem.2.2 none { configFileExists := fun _ => false } _
      (by decide) (by decide) (fun p => rfl)⟩

/-- C7: for every embedded option parser that accepts `--pgdata` (the
create, drop, show and terminal-command parsers), the data directory obeys
the PGDATA contract: a `--pgdata` given on the command line is used
unchanged and the `PGDATA` environment variable is ignored; with no
`--pgdata`, a successful parse takes the data directory from the
environment, and with the variable unset no parse succeeds. -/
theorem claim_C7 (ext : Ext) :
    PgdataContract (fun e opts => cli_create_node_getopts e ext opts) ∧
    PgdataContract (fun e opts => cli_create_monitor_getopts e ext opts) ∧
    PgdataContract (fun e opts => cli_drop_node_getopts e ext opts) ∧
    PgdataContract (fun e opts => cli_getopt_pgdata e ext opts) ∧
    PgdataContract cli_show_state_getopts ∧
    PgdataContract cli_show_nodes_getopts ∧
    PgdataContract (fun e opts => cli_show_uri_getopts e ext opts) ∧
    PgdataContract (fun e opts => cli_show_file_getopts e ext opts) :=
  ⟨cli_create_node_getopts_pgdataContract ext,
   cli_create_monitor_getopts_pgdataContract ext,
   cli_drop_node_getopts_pgdataContract ext,
   cli_getopt_pgdata_pgdataContract ext,
   cli_show_state_getopts_pgdataContract,
   cli_show_nodes_getopts_pgdataContract,
   cli_show_uri_getopts_pgdataContract ext,
   cli_show_file_getopts_pgdataContract ext⟩

/-- Witness for C7: with `--pgdata /data` on the command line, the create
parser gives the same result whether `PGDATA` is set or not; and a
successful `show state` without `--pgdata` stores the environment's
value. -/
theorem claim_C7_witness :
    cli_create_node_getopts (some "/env") extDefault [.pgdata "/data"] =
      cli_create_node_getopts none extDefault [.pgdata "/data"] ∧
    some "/env" = some (PState.pgdata
      { showStateInit with pgdata := "/env" }) := by
  constructor
  · exact (claim_C7 extDefault).1.1 (some "/env") none [.pgdata "/data"]
      (by decide)
  · exact (claim_C7 extDefault).2.2.2.2.1.2.2 (some "/env") [] _
      (by intro v hv; simp at hv) rfl

/-- C8: for `pg_autoctl create postgres` and `pg_autoctl create monitor`
the authentication choice is mandatory and exclusive (absent
`--help`/`--version`): supplying neither `--auth` nor `--skip-pg-hba`
exits with the bad-args code 1; supplying both, in either order, exits
with the bad-args code 1; and a successful parse with `--skip-pg-hba` (and
no `--auth`) stores the sentinel `SKIP_HBA_AUTH_METHOD` as the configured
authentication method. -/
theorem claim_C8 :
    (∀ env ext opts a, .help ∉ opts → .version ∉ opts → .auth a ∈ opts →
      a ≠ "" → .skipPgHba ∈ opts →
      cli_create_node_getopts env ext opts = .exit EXIT_CODE_BAD_ARGS) ∧
    (∀ env ext opts, .help ∉ opts → .version ∉ opts →
      (∀ v, .auth v ∉ opts) → .skipPgHba ∉ opts →
      cli_create_node_getopts env ext opts = .exit EXIT_CODE_BAD_ARGS) ∧
    (∀ env ext opts s, .skipPgHba ∈ opts → (∀ v, .auth v ∉ opts) →
      cli_create_node_getopts env ext opts = .ok s →
      s.authMethod = SKIP_HBA_AUTH_METHOD) ∧
    (∀ env ext opts a, .help ∉ opts → .version ∉ opts → .auth a ∈ opts →
      a ≠ "" → .skipPgHba ∈ opts →
      cli_create_monitor_getopts env ext opts = .exit EXIT_CODE_BAD_ARGS) ∧
    (∀ env ext opts, .help ∉ opts → .version ∉ opts →
      (∀ v, .auth v ∉ opts) → .skipPgHba ∉ opts →
      cli_create_monitor_getopts env ext opts = .exit EXIT_CODE_BAD_ARGS) ∧
    (∀ env ext opts s, .skipPgHba ∈ opts → (∀ v, .auth v ∉ opts) →
      cli_create_monitor_getopts env ext opts = .ok s →
      s.authMethod = SKIP_HBA_AUTH_METHOD) := by
  refine ⟨?_, ?_, ?_, ?_, ?_, ?_⟩
  · intro env ext opts a hh hv ha hane hs
    rcases cli_create_node_getopts_cases env ext opts hh hv with h | ⟨s', hr, he⟩
    · exact h
    · rw [he]
      exact cli_create_node_check_errors
        (runLoop_auth_conflict (createNodeStep_authFacts ext) hr ha hane hs)
  · intro env ext opts hh hv hna hns
    rcases cli_create_node_getopts_cases env ext opts hh hv with h | ⟨s', hr, he⟩
    · exact h
    · rw [he]
      refine cli_create_node_check_auth ?_
      have := runLoop_auth_empty (createNodeStep_authFacts ext) hr hna hns
      simpa [createNodeInit] using this
  · intro env ext opts s hs hna hok
    simp only [cli_create_node_getopts] at hok
    cases hr : runLoop (createNodeStep ext) opts createNodeInit with
    | inl c => rw [hr] at hok; cases hok
    | inr s' =>
      rw [hr] at hok
      have := runLoop_auth_skip (createNodeStep_authFacts ext) hr hs hna
      exact ((cli_create_node_check_ok hok).2.2.1).trans this
  · intro env ext opts a hh hv ha hane hs
    rcases cli_create_monitor_getopts_cases env ext opts hh hv with h | ⟨s', hr, he⟩
    · exact h
    · rw [he]
      exact cli_create_monitor_check_errors
        (runLoop_auth_conflict createMonitorStep_authFacts hr ha hane hs)
  · intro env ext opts hh hv hna hns
    rcases cli_create_monitor_getopts_cases env ext opts hh hv with h | ⟨s', hr, he⟩
    · exact h
    · rw [he]
      refine cli_create_monitor_check_auth ?_
      have := runLoop_auth_empty createMonitorStep_authFacts hr hna hns
      simpa [createMonitorInit] using this
  · intro env ext opts s hs hna hok
    simp only [cli_create_monitor_getopts] at hok
    cases hr : runLoop createMonitorStep opts (createMonitorInit ext) with
    | inl c => rw [hr] at hok; cases hok
    | inr s' =>
      rw [hr] at hok
      have := runLoop_auth_skip createMonitorStep_authFacts hr hs hna
      exact ((cli_create_monitor_check_ok hok).1).trans this

/-- Witness for C8: `--auth trust --skip-pg-hba` exits 1 on create
postgres; omitting both exits 1 on create monitor; and `--skip-pg-hba`
alone stores the skip sentinel. -/
theorem claim_C8_witness :
    cli_create_node_getopts none extDefault
      [.pgdata "/data", .auth "trust", .skipPgHba, .disableMonitor,
       .sslSelfSigned] = .exit EXIT_CODE_BAD_ARGS ∧
    cli_create_monitor_getopts none extDefault
      [.pgdata "/data", .sslSelfSigned] = .exit EXIT_CODE_BAD_ARGS ∧
    PState.authMethod (PState.mk "" "/data" "" 0 "" 0 "" SKIP_HBA_AUTH_METHOD
      "" "" "" (-1) PG_AUTOCTL_MONITOR_DISABLED true
      FAILOVER_NODE_CANDIDATE_PRIORITY FAILOVER_NODE_REPLICATION_QUORUM
      { active := 1, createSelfSignedCert := true } 0 .selfSigned
      false false false false false "" 0 .unknown false false) =
      SKIP_HBA_AUTH_METHOD := by
  refine ⟨?_, ?_, ?_⟩
  · exact claim_C8.1 none extDefault _ "trust" (by decide) (by decide)
      (by decide) (by decide) (by decide)
  · exact claim_C8.2.2.2.2.1 none extDefault _ (by decide) (by decide)
      (by intro v hv; simp at hv) (by decide)
  · exact claim_C8.2.2.1 none extDefault
      [.pgdata "/data", .skipPgHba, .disableMonitor, .sslSelfSigned] _
      (by decide) (by intro v hv; simp at hv) rfl

end PgAutoctl
